import Mathlib

/-!
Verification development for the conversational response shaper: the length
and language-level style selector (`dynamic_response.py`) and the response
critic (`self_awareness.py`).  Python strings are modelled as `String`
(lists of characters), floats as `ℚ`, dictionaries over the five length
classes as functions out of a finite inductive type, and every call to the
ambient random generator as an explicitly passed draw constrained to the
interval the generator was invoked with.  Operations that can raise in
Python (indexing an empty string, dividing by a zero total) return `Option`.
-/

/-! ## Python string primitives, modelled on `List Char` -/

/-- The characters Python `str.split()` and `\s` treat as whitespace. -/
def pyIsSpace (c : Char) : Bool :=
  c = ' ' || c = '\t' || c = '\n' || c = '\r' || c = '\x0b' || c = '\x0c'

/-- A single-quote character, written via its code point. -/
def squote : Char := Char.ofNat 39

/-- First index at which `pat` occurs in `s` (Python `str.find`, as `Option`). -/
def findSubL (pat : List Char) : List Char → Option Nat
  | [] => if pat.isPrefixOf ([] : List Char) then some 0 else none
  | c :: t => if pat.isPrefixOf (c :: t) then some 0 else (findSubL pat t).map (· + 1)

/-- Python `sub in s` for lists of characters. -/
def containsL (s pat : List Char) : Bool := (findSubL pat s).isSome

/-- Number of non-overlapping occurrences of a non-empty `pat` (Python `str.count`). -/
def countSubL (pat : List Char) (s : List Char) : Nat :=
  match s with
  | [] => 0
  | c :: t =>
    if pat.isPrefixOf (c :: t) then 1 + countSubL pat (t.drop (pat.length - 1))
    else countSubL pat t
termination_by s.length
decreasing_by
  all_goals simp only [List.length_cons]
  all_goals (try (have hld := List.length_drop (pat.length - 1) t))
  all_goals omega

/-- Python `str.replace` for a non-empty pattern (non-overlapping, left to right). -/
def replaceL (pat rep : List Char) (s : List Char) : List Char :=
  match s with
  | [] => []
  | c :: t =>
    if pat ≠ [] ∧ pat.isPrefixOf (c :: t) then rep ++ replaceL pat rep (t.drop (pat.length - 1))
    else c :: replaceL pat rep t
termination_by s.length
decreasing_by
  all_goals simp only [List.length_cons]
  all_goals (try (have hld := List.length_drop (pat.length - 1) t))
  all_goals omega

/-- Python `str.split()` with no separator: split on whitespace runs, dropping empties. -/
def splitWsL : List Char → List (List Char)
  | [] => []
  | c :: t =>
    if h : pyIsSpace c then splitWsL t
    else
      let w := List.takeWhile (fun d => !pyIsSpace d) (c :: t)
      w :: splitWsL ((c :: t).drop w.length)
termination_by s => s.length
decreasing_by
  all_goals simp only [List.length_cons]
  · omega
  · have hd := List.length_drop (List.takeWhile (fun d => !pyIsSpace d) (c :: t)).length (c :: t)
    have hw : 0 < (List.takeWhile (fun d => !pyIsSpace d) (c :: t)).length := by
      simp [List.takeWhile_cons, h]
    simp only [List.length_cons] at hd
    omega

def pyLower (s : String) : String := ⟨s.data.map Char.toLower⟩

def pyContains (s sub : String) : Bool := containsL s.data sub.data

def pyCountSub (s sub : String) : Nat := countSubL sub.data s.data

def pyFindSub (s sub : String) : Option Nat := findSubL sub.data s.data

def pyReplace (s old new : String) : String := ⟨replaceL old.data new.data s.data⟩

def pySplitWs (s : String) : List String := (splitWsL s.data).map (⟨·⟩)

def pyStartsWith (s pre : String) : Bool := pre.data.isPrefixOf s.data

/-- Python `str.strip()` on a character list. -/
def stripL (l : List Char) : List Char :=
  ((l.dropWhile pyIsSpace).reverse.dropWhile pyIsSpace).reverse

def pyStrip (s : String) : String := ⟨stripL s.data⟩

/-- Python `str.lstrip(chars)`. -/
def pyLStripSet (s : String) (set : List Char) : String :=
  ⟨s.data.dropWhile (fun c => set.contains c)⟩

/-- Python `str.rstrip(chars)`. -/
def pyRStripSet (s : String) (set : List Char) : String :=
  ⟨(s.data.reverse.dropWhile (fun c => set.contains c)).reverse⟩

/-- Python `str.capitalize()`: first character upper-cased, the rest lower-cased. -/
def pyCapitalize (s : String) : String :=
  match s.data with
  | [] => ⟨[]⟩
  | c :: t => ⟨c.toUpper :: t.map Char.toLower⟩

def pyTake (n : Nat) (s : String) : String := ⟨s.data.take n⟩

def pyDrop (n : Nat) (s : String) : String := ⟨s.data.drop n⟩

/-- Python `sep.join(parts)`. -/
def pyJoin (sep : String) : List String → String
  | [] => ""
  | [s] => s
  | s :: t :: r => s ++ sep ++ pyJoin sep (t :: r)

def pyEndsWith (s suf : String) : Bool := suf.data.isSuffixOf s.data

/-- Python `len` on a string. -/
def pyLen (s : String) : Nat := s.data.length

/-! ## `dynamic_response.py`: the length / language-level style selector

Configuration (`config.py` is not part of the sources; per the spec it
injects five base length-class weights and an on/off switch) is passed in
as an explicit record.  Each call to `random.uniform` / `random.random` /
`random.choice` inside an adjustment step is modelled as a field of a
"draws" record together with an admissibility check recording the interval
or finite set the generator was called with. -/

/-- The five response length classes (`dynamic_response.py`, line 30). -/
inductive RType where
  | extremely_short
  | slightly_short
  | medium
  | slightly_long
  | long
deriving DecidableEq, Repr

/-- The dictionary key order of the `probabilities` dict (insertion order). -/
def RType.all : List RType :=
  [.extremely_short, .slightly_short, .medium, .slightly_long, .long]

/-- A weight table over the five classes (the Python `probabilities` dict). -/
abbrev Probs := RType → ℚ

/-- Models `probabilities[t] = v`. -/
def setW (p : Probs) (t : RType) (v : ℚ) : Probs := fun s => if s = t then v else p s

/-- Models `probabilities[t] *= f`. -/
def scaleW (p : Probs) (t : RType) (f : ℚ) : Probs := setW p t (p t * f)

/-- Selector state (`last_response_type`, `consecutive_same_type_count`). -/
structure DRState where
  last : Option RType
  count : Nat
deriving DecidableEq, Repr

/-- Modelled from the spec: `config.py` is absent from the sources; §6 of the
spec lists, as injected configuration, an on/off switch for length shaping
(`DYNAMIC_MESSAGE_LENGTH_ENABLED`) and five base length-class weights
(`*_RESPONSE_PROBABILITY`). -/
structure DRConfig where
  dynamicEnabled : Bool
  base : Probs

/-- Conversation context (`is_first_message` / `message_count` / `has_media`,
with the `dict.get` defaults folded into the fields). -/
structure PyContext where
  is_first_message : Bool
  message_count : Nat
  has_media : Bool

def command_indicators : List String :=
  ["please", "can you", "could you", "would you", "tell me", "show me", "help me", "explain"]

def greeting_indicators : List String :=
  ["hi", "hello", "hey", "good morning", "good afternoon", "good evening", "what's up", "sup", "yo"]

/-- Models `_adjust_probabilities_for_content` (lines 75-129): deterministic. -/
def adjust_probabilities_for_content (p : Probs) (message_content : String) : Probs :=
  let p1 := scaleW p .extremely_short (1/2)
  let p2 := scaleW p1 .slightly_short (4/5)
  let p3 := scaleW p2 .medium (6/5)
  let p4 := scaleW p3 .slightly_long 2
  let p5 := scaleW p4 .long 3
  let p6 :=
    if pyLen message_content < 50 then
      scaleW (scaleW p5 .slightly_long (9/10)) .long (7/10)
    else if pyLen message_content < 100 then
      scaleW (scaleW p5 .slightly_long 1) .long (4/5)
    else if pyLen message_content > 200 then
      scaleW (scaleW (scaleW (scaleW (scaleW p5 .extremely_short (1/2)) .slightly_short (7/10))
        .medium 1) .slightly_long (6/5)) .long (3/2)
    else p5
  let p7 :=
    if pyContains message_content "?" then
      scaleW (scaleW (scaleW (scaleW (scaleW p6 .extremely_short (7/10)) .slightly_short (9/10))
        .medium (11/10)) .slightly_long (13/10)) .long (11/10)
    else p6
  let p8 :=
    if command_indicators.any (fun ind => pyContains (pyLower message_content) ind) then
      scaleW (scaleW (scaleW (scaleW (scaleW p7 .extremely_short (4/5)) .slightly_short (9/10))
        .medium 1) .slightly_long (6/5)) .long (11/10)
    else p7
  let p9 :=
    if greeting_indicators.any (fun g => pyStartsWith (pyLower message_content) g) then
      scaleW (scaleW (scaleW (scaleW (scaleW p8 .extremely_short (3/2)) .slightly_short (9/5))
        .medium 1) .slightly_long (7/10)) .long (2/5)
    else p8
  p9

/-- Models `_adjust_probabilities_for_context` (lines 131-161): deterministic. -/
def adjust_probabilities_for_context (p : Probs) (context : PyContext) : Probs :=
  let p1 :=
    if context.is_first_message then
      scaleW (scaleW (scaleW (scaleW (scaleW p .extremely_short 2) .slightly_short (3/2))
        .medium 1) .slightly_long (3/5)) .long (2/5)
    else p
  let p2 :=
    if context.message_count > 5 then
      scaleW (scaleW (scaleW (scaleW (scaleW p1 .extremely_short 1) .slightly_short (11/10))
        .medium (6/5)) .slightly_long 1) .long (4/5)
    else p1
  let p3 :=
    if context.has_media then
      scaleW (scaleW (scaleW (scaleW (scaleW p2 .extremely_short (9/10)) .slightly_short 1)
        .medium (6/5)) .slightly_long (11/10)) .long 1
    else p2
  p3

/-- Models `reduction_factor = max(0.1, 0.75 - (count * 0.15))` (line 174). -/
def reductionFactor (count : Nat) : ℚ := max (1/10) (3/4 - (count : ℚ) * (3/20))

/-- The fixed transition table of "natural next" classes (lines 182-188). -/
def transitions : RType → List RType
  | .extremely_short => [.slightly_short, .medium]
  | .slightly_short => [.medium, .extremely_short, .slightly_long]
  | .medium => [.slightly_short, .slightly_long, .long]
  | .slightly_long => [.medium, .long, .slightly_short]
  | .long => [.medium, .slightly_long]

/-- The random draws consumed by `_adjust_probabilities_for_variety`. -/
structure VarietyRand where
  /-- `random.uniform(1.5, 2.5)` for each boosted successor class. -/
  boost : RType → ℚ
  /-- whether `random.random() < 0.12` (the surprise event). -/
  surprise : Bool
  /-- `random.choice(list(probabilities.keys()))`. -/
  surpriseType : RType
  /-- `random.uniform(2.0, 3.5)`. -/
  surpriseFactor : ℚ

/-- Each draw lies in the interval its `random.uniform` call was made with. -/
def VarietyRand.admissible (r : VarietyRand) : Bool :=
  RType.all.all (fun t => decide ((3:ℚ)/2 ≤ r.boost t) && decide (r.boost t ≤ (5:ℚ)/2))
    && decide ((2:ℚ) ≤ r.surpriseFactor) && decide (r.surpriseFactor ≤ (7:ℚ)/2)

/-- The clamp loop of lines 205-210: floor 0.001, cap 100.0. -/
def clampProb (x : ℚ) : ℚ :=
  if x < 1/1000 then 1/1000 else if x > 100 then 100 else x

/-- Models `_adjust_probabilities_for_variety` (lines 163-210). -/
def adjust_probabilities_for_variety (st : DRState) (p : Probs) (r : VarietyRand) : Probs :=
  let p1 :=
    match st.last with
    | some lastT =>
      if st.count > 0 then
        let pr := scaleW p lastT (reductionFactor st.count)
        -- `consecutive_same_type_count >= 1` always holds here
        (transitions lastT).foldl (fun acc t => scaleW acc t (r.boost t)) pr
      else p
    | none => p
  let p2 := if r.surprise then scaleW p1 r.surpriseType r.surpriseFactor else p1
  fun t => clampProb (p2 t)

/-- The random draws consumed by `_apply_randomness`. -/
structure RandomnessRand where
  /-- `random.uniform(0.9, 1.1)` per class (the "flux"). -/
  subtle : RType → ℚ
  /-- whether `random.random() < 0.25` (the global shift). -/
  shift : Bool
  /-- `random.choice(["favor_shorter", "favor_medium"])`. -/
  favorShorter : Bool
  /-- the per-class `random.uniform` draw of the chosen shift profile. -/
  shiftFactor : RType → ℚ
  /-- whether `random.random() < 0.05` (the wildcard event). -/
  wildcard : Bool
  /-- `random.choice(["extremely_short", "slightly_short", "medium"])`. -/
  wildcardType : RType
  /-- `random.uniform(3.0, 5.0)`. -/
  wildcardBoost : ℚ
  /-- `random.uniform(0.4, 0.7)` per suppressed class. -/
  wildcardDamp : RType → ℚ

/-- Lower ends of the per-class shift profile intervals (lines 236-246). -/
def shiftLo (favorShorter : Bool) : RType → ℚ
  | .extremely_short => if favorShorter then 9/5 else 3/5
  | .slightly_short => if favorShorter then 3/2 else 4/5
  | .medium => if favorShorter then 7/10 else 3/2
  | .slightly_long => if favorShorter then 1/2 else 4/5
  | .long => if favorShorter then 3/10 else 1/2

/-- Upper ends of the per-class shift profile intervals (lines 236-246). -/
def shiftHi (favorShorter : Bool) : RType → ℚ
  | .extremely_short => if favorShorter then 14/5 else 9/10
  | .slightly_short => if favorShorter then 11/5 else 11/10
  | .medium => if favorShorter then 1 else 5/2
  | .slightly_long => if favorShorter then 4/5 else 11/10
  | .long => if favorShorter then 3/5 else 4/5

def RandomnessRand.admissible (r : RandomnessRand) : Bool :=
  RType.all.all (fun t =>
      decide ((9:ℚ)/10 ≤ r.subtle t) && decide (r.subtle t ≤ (11:ℚ)/10)
        && decide (shiftLo r.favorShorter t ≤ r.shiftFactor t)
        && decide (r.shiftFactor t ≤ shiftHi r.favorShorter t)
        && decide ((2:ℚ)/5 ≤ r.wildcardDamp t) && decide (r.wildcardDamp t ≤ (7:ℚ)/10))
    && decide ((3:ℚ) ≤ r.wildcardBoost) && decide (r.wildcardBoost ≤ (5:ℚ))
    && (r.wildcardType == .extremely_short || r.wildcardType == .slightly_short
        || r.wildcardType == .medium)

/-- Models `_apply_randomness` (lines 212-264): flux, optional shift profile,
optional wildcard, then a floor of 0.001 with no upper cap. -/
def apply_randomness (p : Probs) (r : RandomnessRand) : Probs :=
  let p1 : Probs := fun t => p t * r.subtle t
  let p2 : Probs := if r.shift then fun t => p1 t * r.shiftFactor t else p1
  let p3 : Probs :=
    if r.wildcard then
      fun t => if t = r.wildcardType then p2 t * r.wildcardBoost else p2 t * r.wildcardDamp t
    else p2
  fun t => if p3 t < 1/1000 then 1/1000 else p3 t

/-- The cumulative-distribution scan of `_select_response_type` (lines 277-290):
returns the first class whose running sum is reached by the draw, or `none`. -/
def selectScan (items : List (RType × ℚ)) (rand_val : ℚ) : Option RType :=
  (((items.foldl (fun (acc : ℚ × List (RType × ℚ)) it =>
      (acc.1 + it.2, acc.2 ++ [(it.1, acc.1 + it.2)])) (0, [])).2).find?
    (fun it => decide (rand_val ≤ it.2))).map (·.1)

/-- Models `_select_response_type` (lines 267-293), with the `medium` fallback. -/
def select_response_type (p : Probs) (rand_val : ℚ) : RType :=
  (selectScan (RType.all.map (fun t => (t, p t))) rand_val).getD .medium

/-- The random draws consumed by one `get_response_type` call. -/
structure LenRand where
  variety : VarietyRand
  rnd : RandomnessRand
  /-- the `random.random()` draw of `_select_response_type`. -/
  draw : ℚ

def LenRand.admissible (r : LenRand) : Bool :=
  r.variety.admissible && r.rnd.admissible && decide ((0:ℚ) ≤ r.draw) && decide (r.draw < 1)

/-- Models `get_response_type` (lines 21-73).  Returns the chosen class and the
updated selector state; `none` models the `ZeroDivisionError` Python would
raise if the weight total were zero at the normalization step. -/
def get_response_type (cfg : DRConfig) (st : DRState) (message_content : String)
    (context : Option PyContext) (r : LenRand) : Option (RType × DRState) :=
  if ¬ cfg.dynamicEnabled then some (.medium, st)
  else
    let probabilities := cfg.base
    let p1 := adjust_probabilities_for_content probabilities message_content
    let p2 := match context with
      | some c => adjust_probabilities_for_context p1 c
      | none => p1
    let p3 := adjust_probabilities_for_variety st p2 r.variety
    let p4 := apply_randomness p3 r.rnd
    let total := RType.all.foldl (fun a t => a + p4 t) 0
    if total = 0 then none
    else
      let normalized : Probs := fun t => p4 t / total
      let response_type := select_response_type normalized r.draw
      let st' :=
        if some response_type = st.last then { st with count := st.count + 1 }
        else ⟨some response_type, 0⟩
      some (response_type, st')

/-- Models `get_language_level` (lines 359-372): pinned to `"A1"`. -/
def get_language_level (message_content : String) (context : Option PyContext) : String :=
  "A1"

/-- The list of complex-connective tokens (lines 479-480). -/
def complex_indicators : List String :=
  ["however", "therefore", "furthermore", "nevertheless", "consequently",
   "although", "despite", "whereas", "moreover", "subsequently"]

/-- Models `words = message.split(); word_count = len(words)` (lines 473-474). -/
def word_count (message : String) : Nat := (pySplitWs message).length

/-- Models `avg_word_length = sum(len(word) for word in words) / max(1, word_count)` (line 475). -/
def avg_word_length (message : String) : ℚ :=
  (((pySplitWs message).foldl (fun a w => a + pyLen w) 0 : ℕ) : ℚ) / (max 1 (word_count message) : ℕ)

/-- Models `sentence_count = message.count('.') + message.count('!') + message.count('?')` (line 476). -/
def sentence_count (message : String) : Nat :=
  pyCountSub message "." + pyCountSub message "!" + pyCountSub message "?"

/-- Models `complex_indicator_count` (line 481). -/
def complex_indicator_count (message : String) : Nat :=
  complex_indicators.countP (fun ind => pyContains (pyLower message) ind)

/-- The summed `complexity_score` of lines 484-511. -/
def complexity_score (message : String) : Nat :=
  (if word_count message < 10 then 1 else if word_count message < 25 then 2 else 3)
    + (if avg_word_length message < 4 then 1 else if avg_word_length message < 11/2 then 2 else 3)
    + (if sentence_count message ≤ 1 then 1 else if sentence_count message ≤ 3 then 2 else 3)
    + min 3 (complex_indicator_count message)

/-- Models `_estimate_message_complexity` (lines 462-519). -/
def estimate_message_complexity (message : String) : String :=
  if complexity_score message ≤ 5 then "simple"
  else if complexity_score message ≤ 9 then "medium"
  else "complex"

/-- Models `get_language_level_instructions` (lines 641-665). -/
def get_language_level_instructions (language_level : String) : String :=
  if language_level = "A1" then
    "Use mostly simple German with basic vocabulary and grammar. Focus on everyday words and simple sentence structures. Use mainly present tense. Keep explanations brief and straightforward. This is like how a beginner would speak German, but still sound natural and human-like. Don't be robotic or overly simplified - real beginners still try to express complex thoughts with simple language."
  else if language_level = "A2" then
    "Use simple but slightly more varied German. Include some basic connectors beyond 'und' and 'aber'. Use present tense primarily but occasionally include perfect tense for past events. Express basic opinions and preferences. Use vocabulary related to everyday situations and personal experiences. This is like how someone with elementary German knowledge would speak - simple but starting to become more expressive."
  else if language_level = "B1" then
    "Use moderately complex German with a good range of everyday vocabulary. Mix simple and compound sentences naturally. Include some subordinate clauses. Use different tenses as needed. Express opinions and give brief explanations. Use some idiomatic expressions. This is like how an intermediate German speaker would communicate - comfortable with everyday topics but still making occasional mistakes."
  else if language_level = "B2" then
    "Use more complex German with a broader vocabulary. Construct varied sentence structures. Express opinions clearly with supporting details. Discuss abstract concepts with some limitations. Use different tenses and moods appropriately. Include idiomatic expressions naturally. This is like how an upper-intermediate German speaker would communicate - generally fluent but still with some limitations in nuance."
  else if language_level = "C1" then
    "Use advanced German with rich vocabulary and varied expressions. Construct complex sentences with different subordinate clauses. Express nuanced opinions and develop arguments. Use precise vocabulary for specific contexts. Include cultural references and idiomatic expressions. This is like how an advanced German speaker would communicate - fluent and expressive with occasional minor errors."
  else if language_level = "C2" then
    "Use sophisticated German with precise and varied vocabulary. Construct complex and elegant sentences. Express subtle nuances and develop detailed arguments. Use specialized terminology when appropriate. Include cultural references, wordplay, and idiomatic expressions naturally. This is like how a near-native German speaker would communicate - highly fluent and nuanced with rare errors."
  else
    "Use moderately complex German with a good range of everyday vocabulary. Mix simple and compound sentences naturally. Include some subordinate clauses. Use different tenses as needed. Express opinions and give brief explanations. Use some idiomatic expressions. This is like how an intermediate German speaker would communicate - comfortable with everyday topics but still making occasional mistakes."

/-- The text of the `format_language_level_for_prompt` f-string before the
interpolated instructions (lines 704-706). -/
def languageLevelPromptPre : String :=
  "\n        NATURAL HUMAN-LIKE GERMAN LANGUAGE INSTRUCTION:\n        "

/-- The text of the `format_language_level_for_prompt` f-string after the
interpolated instructions (lines 706-723). -/
def languageLevelPromptPost : String :=
  "\n\n        EXTREMELY IMPORTANT: Speak German in a completely natural, human-like way. Your language level should be dynamic and unpredictable like a real human's.\n\n        NATURAL LANGUAGE GUIDELINES:\n        - Speak exactly like a real human would in casual conversation\n        - Let your language complexity vary naturally within a conversation\n        - Sometimes use simple language, sometimes more complex depending on the context\n        - Don't follow rigid rules about what words or grammar to use\n        - Occasionally make small grammar mistakes like real humans do\n        - Use natural sentence structures that vary in complexity\n        - Mix short and longer sentences like humans naturally do\n        - Sometimes use slang or colloquial expressions when appropriate\n        - Adjust your language complexity based on the topic and context\n        - Be unpredictable in your language patterns\n\n        IMPORTANT: Your language should NOT follow a consistent pattern or level. It should vary naturally like a real human's speech, with the general complexity level suggested above as just a starting point. Be dynamic and unpredictable in your language use.\n        "

/-- Models `format_language_level_for_prompt` (lines 689-723). -/
def format_language_level_for_prompt (message_content : String)
    (context : Option PyContext) : String :=
  let language_level := get_language_level message_content context
  let instructions := get_language_level_instructions language_level
  languageLevelPromptPre ++ instructions ++ languageLevelPromptPost

/-! ## `self_awareness.py`: the response critic

Only the reflection core (`perform_self_reflection`,
`_detect_response_issues`, `_apply_corrections`) is modelled; the
environment-introspection methods are I/O glue outside the claims.  The
regular expressions of the source are implemented as direct scanners with
Python `re` semantics (leftmost, non-overlapping, greedy). -/

/-- Taking a prefix by predicate never lengthens a list. -/
theorem lengthTakeWhileLe {α : Type} (p : α → Bool) (l : List α) :
    (l.takeWhile p).length ≤ l.length := by
  induction l with
  | nil => simp
  | cons c t ih =>
    by_cases h : p c
    · simp only [List.takeWhile_cons, h, if_true, List.length_cons]
      omega
    · simp [List.takeWhile_cons, h]

/-- Dropping a prefix by predicate never lengthens a list. -/
theorem lengthDropWhileLe {α : Type} (p : α → Bool) (l : List α) :
    (l.dropWhile p).length ≤ l.length := by
  induction l with
  | nil => simp
  | cons c t ih =>
    by_cases h : p c
    · simp only [List.dropWhile_cons, h, if_true, List.length_cons]
      omega
    · simp [List.dropWhile_cons, h]

/-- Models `re.split(r'(?<=[.!?])\s+', s)`: split at whitespace runs preceded by a
sentence terminator, the terminator staying with the left part. -/
def sentSplitGo (cur : List Char) (rest : List Char) : List String :=
  match rest with
  | [] => [⟨cur.reverse⟩]
  | c :: t =>
    match cur with
    | p :: _ =>
      if (p = '.' || p = '!' || p = '?') && pyIsSpace c then
        ⟨cur.reverse⟩ :: sentSplitGo [] (t.dropWhile pyIsSpace)
      else sentSplitGo (c :: cur) t
    | [] => sentSplitGo [c] t
termination_by rest.length
decreasing_by
  all_goals simp only [List.length_cons]
  · have := lengthDropWhileLe pyIsSpace t
    omega
  · omega
  · omega

def pySplitSentences (s : String) : List String := sentSplitGo [] s.data

/-- A character matched by `[a-zA-Z\s]` in the action-markup pattern. -/
def isActionInner (c : Char) : Bool := c.isAlpha || pyIsSpace c

/-- Models `re.findall(r'\*[a-zA-Z\s]+\*', s)`: asterisk-delimited stage directions. -/
def actionFindGo (s : List Char) : List String :=
  match s with
  | [] => []
  | c :: t =>
    if c = '*' then
      let run := t.takeWhile isActionInner
      match hdrop : t.drop run.length with
      | d :: rest =>
        if run ≠ [] ∧ d = '*' then ⟨'*' :: run ++ ['*']⟩ :: actionFindGo rest
        else actionFindGo t
      | [] => actionFindGo t
    else actionFindGo t
termination_by s.length
decreasing_by
  all_goals simp only [List.length_cons]
  · have h2 := List.length_drop (List.takeWhile isActionInner t).length t
    rw [hdrop] at h2
    simp only [List.length_cons] at h2
    omega
  all_goals omega

def pyFindActionMarks (s : String) : List String := actionFindGo s.data

/-- Models `re.sub(r'\*[a-zA-Z\s]+\*', '', s)`. -/
def actionSubGo (s : List Char) : List Char :=
  match s with
  | [] => []
  | c :: t =>
    if c = '*' then
      let run := t.takeWhile isActionInner
      match hdrop : t.drop run.length with
      | d :: rest =>
        if run ≠ [] ∧ d = '*' then actionSubGo rest
        else c :: actionSubGo t
      | [] => c :: actionSubGo t
    else c :: actionSubGo t
termination_by s.length
decreasing_by
  all_goals simp only [List.length_cons]
  · have h2 := List.length_drop (List.takeWhile isActionInner t).length t
    rw [hdrop] at h2
    simp only [List.length_cons] at h2
    omega
  all_goals omega

def pyStripActionMarks (s : String) : String := ⟨actionSubGo s.data⟩

/-- Models `re.sub(r'\s+', ' ', s)`. -/
def collapseWsGo (s : List Char) : List Char :=
  match s with
  | [] => []
  | c :: t =>
    if pyIsSpace c then ' ' :: collapseWsGo (t.dropWhile pyIsSpace)
    else c :: collapseWsGo t
termination_by s.length
decreasing_by
  all_goals simp only [List.length_cons]
  · have := lengthDropWhileLe pyIsSpace t
    omega
  · omega

def pyCollapseWs (s : String) : String := ⟨collapseWsGo s.data⟩

/-- A character matched by `\w` (ASCII). -/
def isWordChar (c : Char) : Bool := c.isAlphanum || c = '_'

/-- An ASCII upper-case letter (`[A-Z]`). -/
def isUpperAZ (c : Char) : Bool := 'A' ≤ c && c ≤ 'Z'

/-- An ASCII lower-case letter (`[a-z]`). -/
def isLowerAZ (c : Char) : Bool := 'a' ≤ c && c ≤ 'z'

/-- Models `re.findall(r'\b[A-Z][a-z]+\b', s)`: capitalized words, `prevWord`
tracking whether the previous character was a `\w` character. -/
def namesGo (prevWord : Bool) (s : List Char) : List String :=
  match s with
  | [] => []
  | c :: t =>
    if ¬ prevWord ∧ isUpperAZ c then
      let run := t.takeWhile isLowerAZ
      let after := t.drop run.length
      if run ≠ [] ∧ (after.head?.all (fun d => ¬ isWordChar d)) then
        ⟨c :: run⟩ :: namesGo true after
      else namesGo (isWordChar c) t
    else namesGo (isWordChar c) t
termination_by s.length
decreasing_by
  all_goals simp only [List.length_cons]
  · have h1 := lengthTakeWhileLe isLowerAZ t
    have h2 := List.length_drop (List.takeWhile isLowerAZ t).length t
    rename_i hrun
    have : (List.takeWhile isLowerAZ t).length ≠ 0 := by
      intro h0
      exact hrun.1 (List.eq_nil_of_length_eq_zero h0)
    omega
  all_goals omega

def pyFindNames (s : String) : List String := namesGo false s.data

/-- Models `re.findall(r'\b\w+\b', s)`: the maximal `\w` runs. -/
def wordTokensGo (s : List Char) : List String :=
  match s with
  | [] => []
  | c :: t =>
    if isWordChar c then
      let run := (c :: t).takeWhile isWordChar
      ⟨run⟩ :: wordTokensGo ((c :: t).drop run.length)
    else wordTokensGo t
termination_by s.length
decreasing_by
  all_goals simp only [List.length_cons]
  · have h2 := List.length_drop ((c :: t).takeWhile isWordChar).length (c :: t)
    have hw : 0 < ((c :: t).takeWhile isWordChar).length := by
      simp [List.takeWhile_cons]
      rename_i hc
      simp [hc]
    simp only [List.length_cons] at h2
    omega
  · omega

def pyWordTokens (s : String) : List String := wordTokensGo s.data

/-- Models `re.search(r"'([^']+)'", s)`: the content of the first quoted span. -/
def quotedGo (s : List Char) : Option String :=
  match s with
  | [] => none
  | c :: t =>
    if c = squote then
      let run := t.takeWhile (fun d => d ≠ squote)
      if run ≠ [] ∧ (t.drop run.length).head? = some squote then some ⟨run⟩
      else quotedGo t
    else quotedGo t

def pyQuotedSpan (s : String) : Option String := quotedGo s.data

/-- Models `re.sub(r'\b' + pat + r'\b', rep, s)` for an all-letter `pat`;
`ci` selects `re.IGNORECASE`.  `prevWord` tracks the word-boundary state. -/
def wordBoundReplGo (ci : Bool) (pat rep : List Char) (prevWord : Bool) (s : List Char) :
    List Char :=
  match s with
  | [] => []
  | c :: t =>
    let cand := (c :: t).take pat.length
    if hm : ¬ prevWord ∧ pat ≠ [] ∧
        (if ci then cand.map Char.toLower = pat.map Char.toLower else cand = pat) ∧
        (((c :: t).drop pat.length).head?.all (fun d => ¬ isWordChar d)) then
      rep ++ wordBoundReplGo ci pat rep true ((c :: t).drop pat.length)
    else c :: wordBoundReplGo ci pat rep (isWordChar c) t
termination_by s.length
decreasing_by
  all_goals simp only [List.length_cons]
  · have h2 := List.length_drop pat.length (c :: t)
    have : pat.length ≠ 0 := by
      intro h0
      exact hm.2.1 (List.eq_nil_of_length_eq_zero h0)
    simp only [List.length_cons] at h2
    omega
  · omega

/-- Case-insensitive whole-word replacement (`flags=re.IGNORECASE`). -/
def pyWordReplCI (s pat rep : String) : String :=
  ⟨wordBoundReplGo true pat.data rep.data false s.data⟩

/-- Case-sensitive whole-word replacement. -/
def pyWordRepl (s pat rep : String) : String :=
  ⟨wordBoundReplGo false pat.data rep.data false s.data⟩

/-- A detected issue: the Python dict `{"type": ..., "details": ...}`. -/
structure Issue where
  itype : String
  details : String
deriving DecidableEq, Repr

def casual_indicators : List String :=
  ["hey", "hi", "sup", "yo", "what's up", "wassup", "lol", "haha", "cool", "nice", "ok",
   "okay", "k", "yep", "nope"]

def formal_indicators : List String :=
  ["I would like to", "I am pleased to", "I must inform you",
   "it is important to note", "I would be delighted", "nevertheless",
   "furthermore", "in addition", "consequently", "therefore",
   "I would suggest", "I believe that", "It appears that"]

def explanation_indicators : List String :=
  ["let me explain", "to clarify", "in other words", "this means",
   "to put it simply", "to elaborate", "to be more specific",
   "what I mean is", "basically", "essentially", "fundamentally"]

def complex_words : List String :=
  ["nevertheless", "consequently", "furthermore", "subsequently", "notwithstanding",
   "quintessential", "paradigm", "juxtaposition", "dichotomy", "amalgamation",
   "ubiquitous", "esoteric", "ephemeral", "superfluous", "idiosyncratic",
   "meticulous", "intrinsic", "extrinsic", "conundrum", "plethora", "myriad",
   "ostensibly", "purportedly", "indubitably", "inexorable", "inextricable"]

def excluded_own_names : List String := ["nyxie", "waffieu", "echo", "russet"]

def ai_phrases : List String :=
  ["as an AI", "as a language model", "as an assistant", "I'm here to help",
   "I'm happy to assist", "I don't have personal", "I cannot", "I'm unable to",
   "I don't have the ability", "I don't have access", "I was designed to",
   "I don't have emotions", "I don't have opinions", "I don't have preferences",
   "I'm not capable of", "I'm not able to", "I don't have the capability",
   "as a virtual", "as a digital", "my programming", "my creators", "my developers"]

def choppy_conjunctions : List String := ["and", "but", "or", "because", "since", "although"]

def contracted_forms : List String :=
  ["i'm", "you're", "he's", "she's", "it's", "we're", "they're", "isn't", "aren't",
   "wasn't", "weren't", "hasn't", "haven't", "hadn't", "won't", "wouldn't", "don't",
   "doesn't", "didn't", "can't", "couldn't", "shouldn't", "mightn't", "mustn't",
   "i've", "you've", "we've", "they've", "i'd", "you'd", "he'd", "she'd", "it'd",
   "we'd", "they'd", "i'll", "you'll", "he'll", "she'll", "it'll", "we'll", "they'll",
   "there's", "that's", "what's", "where's", "who's", "how's"]

def apologetic_detect_phrases : List String :=
  ["i'm sorry", "i apologize", "my apologies", "forgive me"]

def user_frustration_indicators : List String :=
  ["wrong", "incorrect", "that's not right", "you made a mistake", "fix it", "disappointed"]

def assumption_detect_phrases : List String :=
  ["you must be", "you're probably", "i assume you", "obviously you", "of course you"]

def advice_detect_phrases : List String :=
  ["you should", "you ought to", "it would be better if you", "i recommend that you"]

def advice_question_words : List String := ["should i", "what do you recommend", "advice"]

def internal_process_phrases : List String :=
  ["i am now searching", "let me check", "i will look up", "processing your request",
   "thinking..."]

def user_negative_emotion : List String :=
  ["sad", "angry", "upset", "frustrated", "annoyed", "terrible", "awful"]

def bot_positive_emotion : List String :=
  ["great!", "fantastic!", "wonderful!", "awesome!", "so happy to", "excited to"]

/-- The adjacent lower-cased word pairs (`word_pairs`, line 310). -/
def wordPairs (ws : List String) : List String :=
  (ws.zip ws.tail).map (fun pr => pr.1 ++ " " ++ pr.2)

/-- The first two sentence-start token lists that agree (lines 433-449). -/
def repStartScan : List (List String) → Option Issue
  | a :: b :: rest =>
    if a.length ≥ 2 ∧ a.take 2 = b.take 2 then
      some ⟨"repetitive_sentence_start",
        "Consecutive sentences start with similar phrases: '" ++ pyJoin " " (a.take 2) ++ "'"⟩
    else if a.length ≥ 3 ∧ a.take 3 = b.take 3 then
      some ⟨"repetitive_sentence_start",
        "Consecutive sentences start with similar phrases: '" ++ pyJoin " " (a.take 3) ++ "'"⟩
    else repStartScan (b :: rest)
  | _ => none

/-- Models `_detect_response_issues` (lines 268-524), issues in source append order. -/
def detect_response_issues (response user_message : String) : List Issue :=
  let lengthIssues : List Issue :=
    if pyLen response > 300 ∧ pyCountSub (pyStrip user_message) " " < 20 then
      [⟨"excessive_length", "Response is too long for a simple user message"⟩]
    else if pyLen response > 500 then
      [⟨"excessive_length", "Response is too long for natural human conversation"⟩]
    else []
  let formalIssues : List Issue :=
    if casual_indicators.any (fun ind => pyContains (pyLower user_message) ind) ∧
        formal_indicators.any (fun ind => pyContains response ind) then
      [⟨"overly_formal", "Response is too formal for a casual message"⟩]
    else []
  let lwords := pySplitWs (pyLower response)
  let repPhraseIssues : List Issue :=
    if lwords.length > 10 then
      let pairs := wordPairs lwords
      match pairs.find? (fun pr => decide (pairs.count pr > 2) && decide (pyLen pr > 5)) with
      | some pr => [⟨"repetitive_phrases", "Phrase '" ++ pr ++ "' is used repetitively"⟩]
      | none => []
    else []
  let explanation_count :=
    explanation_indicators.foldl (fun a ind => a + pyCountSub (pyLower response) ind) 0
  let explIssues : List Issue :=
    if explanation_count > 1 then
      [⟨"excessive_explanation", "Response contains too many explanations"⟩]
    else []
  let complexIssues : List Issue :=
    if (pyContains user_message "?" ∧ pyLen user_message < 60) ∨ pyLen user_message < 30 then
      let complex_word_count :=
        complex_words.foldl (fun a w => a + pyCountSub (pyLower response) w) 0
      if complex_word_count > 0 then
        [⟨"overly_complex", "Response uses complex words for a simple message"⟩]
      else []
    else []
  let structureIssues : List Issue :=
    if (pyCountSub response "\n1." > 0 ∨ pyCountSub response "1)" > 0 ∨
        pyCountSub response "First," > 0 ∨ pyCountSub response "Firstly" > 0 ∨
        pyCountSub response "To begin with" > 0) ∧ pyLen user_message < 100 then
      [⟨"unnatural_structure", "Response uses numbered points or formal structure unnecessarily"⟩]
    else []
  let nameIssues : List Issue :=
    (pyFindNames user_message).foldr
      (fun name acc =>
        (if pyContains response name ∧ pyLen name > 3 ∧
            ¬ excluded_own_names.contains (pyLower name) ∧ pyCountSub response name ≥ 1 then
          [⟨"excessive_name_usage",
            "Response uses the user's name '" ++ name ++ "' "
              ++ Nat.repr (pyCountSub response name) ++ " times"⟩]
        else []) ++ acc) []
  let aiIssues : List Issue :=
    ai_phrases.foldr
      (fun phrase acc =>
        (if pyContains (pyLower response) (pyLower phrase) then
          [⟨"ai_phrases", "Response contains AI-like phrase: '" ++ phrase ++ "'"⟩]
        else []) ++ acc) []
  let action_marks := pyFindActionMarks response
  let actionIssues : List Issue :=
    if action_marks ≠ [] then
      [⟨"action_prefixes", "Response contains action prefixes: " ++ pyJoin ", " action_marks⟩]
    else []
  let sentences := pySplitSentences response
  let rsIssues : List Issue :=
    if sentences.length ≥ 3 then
      let sentence_lengths := sentences.map pyLen
      let avg_length : ℚ :=
        ((sentence_lengths.foldl (· + ·) 0 : ℕ) : ℚ) / (sentence_lengths.length : ℕ)
      let similar_length_count :=
        (sentence_lengths.filter
          (fun L => decide (|(L : ℚ) - avg_length| < (1/5) * avg_length))).length
      if similar_length_count ≥ min 3 sentences.length then
        [⟨"repetitive_sentence_structure",
          "Response uses too many sentences of similar length and structure"⟩]
      else []
    else []
  let choppyIssues : List Issue :=
    if sentences.length ≥ 3 then
      let simple_statement_count :=
        (sentences.filter
          (fun s => decide ((pySplitWs s).length ≤ 6) &&
            ! choppy_conjunctions.any (fun conj => pyContains (pyLower s) conj))).length
      if simple_statement_count ≥ min 3 sentences.length then
        [⟨"choppy_sentences",
          "Response uses too many short, simple sentences without variation"⟩]
      else []
    else []
  let longIssues : List Issue :=
    if sentences.any (fun s => (pySplitWs s).length > 25) then
      [⟨"overly_long_sentence", "Response contains an unnaturally long sentence"⟩]
    else []
  let adverb_count := pyCountSub (pyLower response) "ly "
  let adverbIssues : List Issue :=
    if adverb_count > 3 ∧ pyLen response < 300 then
      [⟨"excessive_adverbs", "Response uses too many adverbs for natural speech"⟩]
    else []
  let startIssues : List Issue :=
    if sentences.length ≥ 3 then
      let start_words := sentences.map (fun s => (pyWordTokens (pyLower (pyStrip s))).take 3)
      match repStartScan start_words with
      | some iss => [iss]
      | none => []
    else []
  let response_lower := pyLower response
  let contraction_count :=
    contracted_forms.foldl (fun a f => a + pyCountSub response_lower f) 0
  let resp_word_count := (pySplitWs response).length
  let contractionIssues : List Issue :=
    if resp_word_count > 50 ∧ contraction_count < 2 then
      [⟨"lack_of_contractions", "Response is long but contains very few contractions"⟩]
    else if resp_word_count > 20 ∧ contraction_count = 0 then
      [⟨"lack_of_contractions", "Response is moderately long but contains no contractions"⟩]
    else []
  let apologeticIssues : List Issue :=
    if apologetic_detect_phrases.any (fun ph => pyContains (pyLower response) ph) ∧
        ¬ user_frustration_indicators.any (fun ind => pyContains (pyLower user_message) ind) then
      [⟨"overly_apologetic", "Response is unnecessarily apologetic."⟩]
    else []
  let assumptionIssues : List Issue :=
    if assumption_detect_phrases.any (fun ph => pyContains (pyLower response) ph) then
      [⟨"making_assumptions", "Response appears to be making assumptions about the user."⟩]
    else []
  let adviceIssues : List Issue :=
    if advice_detect_phrases.any (fun ph => pyContains (pyLower response) ph) ∧
        ¬ advice_question_words.any (fun q => pyContains (pyLower user_message) q) then
      [⟨"unsolicited_advice", "Response offers unsolicited advice."⟩]
    else []
  let selfNameIssues : List Issue :=
    if pyCountSub (pyLower response) "nyxie" > 1 ∧ pyLen response < 200 then
      [⟨"self_name_overuse", "Response uses the bot's name 'Nyxie' too frequently."⟩]
    else []
  let internalIssues : List Issue :=
    if internal_process_phrases.any (fun ph => pyContains (pyLower response) ph) then
      [⟨"revealing_internal_process", "Response reveals internal thought/processing steps."⟩]
    else []
  let toneIssues : List Issue :=
    if user_negative_emotion.any (fun e => pyContains (pyLower user_message) e) ∧
        bot_positive_emotion.any (fun e => pyContains (pyLower response) e) then
      [⟨"emotional_tone_mismatch", "Bot's cheerful tone may mismatch user's negative sentiment."⟩]
    else []
  lengthIssues ++ formalIssues ++ repPhraseIssues ++ explIssues ++ complexIssues
    ++ structureIssues ++ nameIssues ++ aiIssues ++ actionIssues ++ rsIssues
    ++ choppyIssues ++ longIssues ++ adverbIssues ++ startIssues ++ contractionIssues
    ++ apologeticIssues ++ assumptionIssues ++ adviceIssues ++ selfNameIssues
    ++ internalIssues ++ toneIssues

/-- The random draws `_apply_corrections` can consume.  Each randomized
branch runs at most once per call (its issue kind appears at most once in a
detection result), so one record of draw functions covers a whole call;
loop-indexed draws are functions of the loop position. -/
structure CorrRand where
  /-- `random.randint(1, 2)` in the excessive-length branch. -/
  lenKeep : Nat
  /-- `sorted(random.sample(range(1, n), min(2, n - 1)))` in the
  repetitive-phrases branch, as a function of `n = len(sentences)`. -/
  rpSample : Nat → List Nat
  /-- `random.random() < 0.6` at loop index `i` (repetitive-structure merge). -/
  rsCombine : Nat → Bool
  /-- `random.choice([" and ", " but ", " so ", " because "])` at index `i`. -/
  rsConj : Nat → String
  /-- `random.random() < 0.3` per sentence (fragment pass). -/
  rsFrag : Nat → Bool
  /-- `random.randint(1, 3)` per fragmented sentence. -/
  rsFragLen : Nat → Nat
  /-- `random.random() < 0.7` at loop index `i` (choppy merge). -/
  chCombine : Nat → Bool
  /-- the `random.choice(connectors)` draw at index `i` (choppy merge). -/
  chConn : Nat → String
  /-- `random.random() < 0.5` per adverb-suffixed word. -/
  advDrop : Nat → Bool
  /-- `random.choice(["Got it.", "Understood.", "Alright."])`. -/
  apolChoice : String
  /-- `random.choice(["One moment.", "Let me see.", "Okay."])`. -/
  internalChoice : String

def chopConnectors : List String :=
  [" and ", " but ", " so ", " because ", " although ",
   " which is why ", " - ", "; ", ", and ", ", but "]

def rsConjunctions : List String := [" and ", " but ", " so ", " because "]

/-- Every draw lies in the set or interval its generator call ranged over. -/
def CorrRand.Admissible (cr : CorrRand) : Prop :=
  (1 ≤ cr.lenKeep ∧ cr.lenKeep ≤ 2) ∧
  (∀ n, (cr.rpSample n).length = min 2 (n - 1) ∧ (cr.rpSample n).Pairwise (· < ·) ∧
    ∀ i ∈ cr.rpSample n, 1 ≤ i ∧ i < n) ∧
  (∀ i, cr.rsConj i ∈ rsConjunctions) ∧
  (∀ i, 1 ≤ cr.rsFragLen i ∧ cr.rsFragLen i ≤ 3) ∧
  (∀ i, cr.chConn i ∈ chopConnectors) ∧
  cr.apolChoice ∈ (["Got it.", "Understood.", "Alright."] : List String) ∧
  cr.internalChoice ∈ (["One moment.", "Let me see.", "Okay."] : List String)

/-- Excessive-length correction (lines 540-549). -/
def correct_excessive_length (cr : CorrRand) (details corrected : String) : Option String :=
  let sentences := pySplitSentences corrected
  if sentences.length > 2 then
    if pyContains details "simple user message" then
      match sentences with
      | s0 :: _ => some s0
      | [] => none
    else some (pyJoin " " (sentences.take cr.lenKeep))
  else some corrected

def formal_to_casual : List (String × String) :=
  [("I would like to", "I want to"),
   ("I am pleased to", "I'm happy to"),
   ("I must inform you", "Just so you know"),
   ("it is important to note", "heads up"),
   ("I would be delighted", "I'd love"),
   ("nevertheless", "still"),
   ("furthermore", "also"),
   ("in addition", "plus"),
   ("consequently", "so"),
   ("therefore", "so"),
   ("I would suggest", "Maybe try"),
   ("I believe that", "I think"),
   ("It appears that", "Looks like")]

/-- Overly-formal correction (lines 551-569). -/
def correct_overly_formal (corrected : String) : String :=
  formal_to_casual.foldl (fun acc kv => pyReplace acc kv.1 kv.2) corrected

/-- Repetitive-phrases correction (lines 571-577). -/
def correct_repetitive_phrases (cr : CorrRand) (corrected : String) : Option String :=
  let sentences := pySplitSentences corrected
  if sentences.length > 1 then
    let keep_indices := 0 :: cr.rpSample sentences.length
    (keep_indices.mapM (fun i => sentences.get? i)).map (pyJoin " ")
  else some corrected

/-- Excessive-explanation correction (lines 579-590). -/
def correct_excessive_explanation (corrected : String) : String :=
  let c1 := explanation_indicators.foldl (fun acc ind => pyReplace acc ind "") corrected
  let sentences := pySplitSentences c1
  if sentences.length > 3 then pyJoin " " (sentences.take 2) else c1

def complex_to_simple : List (String × String) :=
  [("nevertheless", "still"), ("consequently", "so"), ("furthermore", "also"),
   ("subsequently", "later"), ("notwithstanding", "despite"),
   ("quintessential", "perfect"), ("paradigm", "model"),
   ("juxtaposition", "contrast"), ("dichotomy", "difference"),
   ("amalgamation", "mix"), ("ubiquitous", "everywhere"), ("esoteric", "unusual"),
   ("ephemeral", "short-lived"), ("superfluous", "extra"),
   ("idiosyncratic", "unique"), ("meticulous", "careful"), ("intrinsic", "natural"),
   ("extrinsic", "external"), ("conundrum", "problem"), ("plethora", "many"),
   ("myriad", "lots of"), ("ostensibly", "seemingly"), ("purportedly", "supposedly"),
   ("indubitably", "definitely"), ("inexorable", "unstoppable"),
   ("inextricable", "linked")]

/-- Overly-complex correction (lines 592-623). -/
def correct_overly_complex (corrected : String) : String :=
  complex_to_simple.foldl (fun acc kv => pyWordReplCI acc kv.1 kv.2) corrected

/-- Models `re.sub(r'\n\d+\.\s*', ' ', s)`. -/
def subNumDotGo (s : List Char) : List Char :=
  match s with
  | [] => []
  | c :: t =>
    if c = '\n' then
      let digits := t.takeWhile Char.isDigit
      match hdrop : t.drop digits.length with
      | d :: rest =>
        if digits ≠ [] ∧ d = '.' then
          ' ' :: subNumDotGo (rest.dropWhile pyIsSpace)
        else c :: subNumDotGo t
      | [] => c :: subNumDotGo t
    else c :: subNumDotGo t
termination_by s.length
decreasing_by
  all_goals simp only [List.length_cons]
  · have h2 := List.length_drop (List.takeWhile Char.isDigit t).length t
    rw [hdrop] at h2
    simp only [List.length_cons] at h2
    have h3 := lengthDropWhileLe pyIsSpace rest
    omega
  all_goals omega

/-- Models `re.sub(r'\d+\)\s*', ' ', s)`. -/
def subNumParenGo (s : List Char) : List Char :=
  match s with
  | [] => []
  | c :: t =>
    if c.isDigit then
      let digits := (c :: t).takeWhile Char.isDigit
      match hdrop : (c :: t).drop digits.length with
      | d :: rest =>
        if d = ')' then ' ' :: subNumParenGo (rest.dropWhile pyIsSpace)
        else c :: subNumParenGo t
      | [] => c :: subNumParenGo t
    else c :: subNumParenGo t
termination_by s.length
decreasing_by
  all_goals simp only [List.length_cons]
  · have h2 := List.length_drop ((c :: t).takeWhile Char.isDigit).length (c :: t)
    rw [hdrop] at h2
    simp only [List.length_cons] at h2
    have h3 := lengthDropWhileLe pyIsSpace rest
    omega
  all_goals omega

/-- Unnatural-structure correction (lines 625-631). -/
def correct_unnatural_structure (corrected : String) : String :=
  let c1 : String := ⟨subNumDotGo corrected.data⟩
  let c2 : String := ⟨subNumParenGo c1.data⟩
  let c3 := pyReplace (pyReplace (pyReplace c2 "First," "") "Second," "") "Third," ""
  let c4 := pyReplace (pyReplace (pyReplace c3 "Firstly," "") "Secondly," "") "Thirdly," ""
  pyReplace (pyReplace c4 "To begin with," "") "To start," ""

/-- Excessive-name-usage correction (lines 633-641). -/
def correct_excessive_name_usage (details corrected : String) : String :=
  match pyQuotedSpan details with
  | some name => pyCollapseWs (pyWordRepl corrected name "")
  | none => corrected

def ai_phrase_replacements : List (String × String) :=
  [("as an AI", ""),
   ("as a language model", ""),
   ("as an assistant", ""),
   ("I'm here to help", "I can help"),
   ("I'm happy to assist", "I can help"),
   ("I don't have personal", "I'm not sure about"),
   ("I cannot", "I can't"),
   ("I'm unable to", "I can't"),
   ("I don't have the ability", "I can't"),
   ("I don't have access", "I don't know"),
   ("I was designed to", "I like to"),
   ("I don't have emotions", "I feel"),
   ("I don't have opinions", "I think"),
   ("I don't have preferences", "I prefer"),
   ("I'm not capable of", "I can't"),
   ("I'm not able to", "I can't"),
   ("I don't have the capability", "I can't"),
   ("as a virtual", ""),
   ("as a digital", ""),
   ("my programming", "my thinking"),
   ("my creators", "Waffieu"),
   ("my developers", "Waffieu")]

/-- AI-phrase correction (lines 643-689): best (longest, first on ties)
replacement-table key contained in the offending phrase. -/
def correct_ai_phrases (details corrected : String) : String :=
  match pyQuotedSpan details with
  | none => corrected
  | some ai_phrase =>
    let best := ai_phrase_replacements.foldl
      (fun (acc : Option (String × String) × Nat) kv =>
        if pyContains (pyLower ai_phrase) (pyLower kv.1) ∧ pyLen kv.1 > acc.2 then
          (some kv, pyLen kv.1)
        else acc)
      (none, 0)
    match best.1 with
    | some kv => pyReplace corrected ai_phrase kv.2
    | none => pyReplace corrected ai_phrase ""

/-- Action-markup correction (lines 691-696). -/
def correct_action_markup (corrected : String) : String :=
  pyCollapseWs (pyStripActionMarks corrected)

/-- The sentence-merging while-loop of the repetitive-structure branch
(lines 703-715); `none` models the `IndexError` on an empty `sentences[i+1]`. -/
def rsCombineGo (cr : CorrRand) (l : List String) (i : Nat) : Option (List String) :=
  match l with
  | [] => some []
  | [s] => some [s]
  | s :: snd :: rest =>
    if cr.rsCombine i then
      let conjunction := cr.rsConj i
      match snd.data with
      | [] => none
      | c :: t =>
        (rsCombineGo cr rest (i + 2)).map
          (fun r => (pyRStripSet s ['.', '!', '?'] ++ conjunction ++ (⟨c.toLower :: t⟩ : String)) :: r)
    else (rsCombineGo cr (snd :: rest) (i + 1)).map (s :: ·)

/-- The fragmenting pass of the repetitive-structure branch (lines 717-724). -/
def rsFragmentPass (cr : CorrRand) (l : List String) : List String :=
  l.enum.map (fun pr =>
    if cr.rsFrag pr.1 then
      let ws := pySplitWs pr.2
      if ws.length > 3 then pyJoin " " (ws.take (cr.rsFragLen pr.1)) ++ "." else pr.2
    else pr.2)

/-- Repetitive-sentence-structure correction (lines 698-726). -/
def correct_repetitive_structure (cr : CorrRand) (corrected : String) : Option String :=
  let sentences := pySplitSentences corrected
  if sentences.length ≥ 3 then
    (rsCombineGo cr sentences 0).map (fun ns => pyJoin " " (rsFragmentPass cr ns))
  else some corrected

/-- The sentence-merging while-loop of the choppy branch (lines 733-754). -/
def chopCombineGo (cr : CorrRand) (l : List String) (i : Nat) : Option (List String) :=
  match l with
  | [] => some []
  | [s] => some [s]
  | s :: snd :: rest =>
    if cr.chCombine i then
      let connector := cr.chConn i
      if connector = " - " ∨ connector = "; " then
        (chopCombineGo cr rest (i + 2)).map
          (fun r => (pyRStripSet s ['.', '!', '?'] ++ connector ++ snd) :: r)
      else
        match snd.data with
        | [] => none
        | c :: t =>
          (chopCombineGo cr rest (i + 2)).map
            (fun r => (pyRStripSet s ['.', '!', '?'] ++ connector ++ (⟨c.toLower :: t⟩ : String)) :: r)
    else (chopCombineGo cr (snd :: rest) (i + 1)).map (s :: ·)

/-- Choppy-sentences correction (lines 728-756). -/
def correct_choppy (cr : CorrRand) (corrected : String) : Option String :=
  let sentences := pySplitSentences corrected
  if sentences.length ≥ 3 then
    (chopCombineGo cr sentences 0).map (pyJoin " ")
  else some corrected

def long_split_words : List String := ["and", "but", "or", "because", "since"]

/-- The `\s+word\s+` alternatives of the long-sentence split pattern,
matched at the head of `s`. -/
def longSplitWsAlt (s : List Char) : Option Nat :=
  let w := s.takeWhile pyIsSpace
  if w = [] then none
  else
    let after := s.drop w.length
    (long_split_words.find? (fun word =>
        word.data.isPrefixOf after &&
          decide ((after.drop (pyLen word)).takeWhile pyIsSpace ≠ []))).map
      (fun word => w.length + pyLen word + ((after.drop (pyLen word)).takeWhile pyIsSpace).length)

/-- Length of a match of `,\s+|\s+and\s+|\s+but\s+|\s+or\s+|\s+because\s+|\s+since\s+`
starting at the head of `s`, if any; the comma alternative is tried first. -/
def longSplitLenAt (s : List Char) : Option Nat :=
  match s with
  | ',' :: t =>
    let w := t.takeWhile pyIsSpace
    if w ≠ [] then some (1 + w.length) else longSplitWsAlt (',' :: t)
  | _ => longSplitWsAlt s

theorem longSplitWsAlt_pos (s : List Char) (n : Nat) (h : longSplitWsAlt s = some n) : 0 < n := by
  unfold longSplitWsAlt at h
  dsimp only at h
  split at h
  · simp at h
  · rename_i hw
    simp only [Option.map_eq_some'] at h
    obtain ⟨word, hfind, hn⟩ := h
    have : 0 < (s.takeWhile pyIsSpace).length := by
      cases hq : (s.takeWhile pyIsSpace) with
      | nil => exact absurd hq hw
      | cons a b => simp [hq]
    omega

theorem longSplitLenAt_pos (s : List Char) (n : Nat) (h : longSplitLenAt s = some n) : 0 < n := by
  unfold longSplitLenAt at h
  split at h
  · dsimp only at h
    split at h
    · injection h with h
      omega
    · exact longSplitWsAlt_pos _ _ h
  · exact longSplitWsAlt_pos _ _ h

/-- Models `[m.start() for m in re.finditer(...)]` (line 766), non-overlapping scan. -/
def finditerLongGo (s : List Char) (pos : Nat) : List Nat :=
  match s with
  | [] => []
  | c :: t =>
    match hm : longSplitLenAt (c :: t) with
    | some len => pos :: finditerLongGo ((c :: t).drop len) (pos + len)
    | none => finditerLongGo t (pos + 1)
termination_by s.length
decreasing_by
  all_goals simp only [List.length_cons]
  · have hp := longSplitLenAt_pos (c :: t) len hm
    have h2 := List.length_drop len (c :: t)
    simp only [List.length_cons] at h2
    omega
  · omega

/-- The per-sentence body of the overly-long-sentence correction (lines 763-782):
a long sentence splits into two parts at the split point nearest its middle. -/
def fixLongSentence (sentence : String) : List String :=
  if (pySplitWs sentence).length > 25 then
    let split_points := finditerLongGo sentence.data 0
    match split_points with
    | [] => [sentence]
    | p :: ps =>
      let middle : ℚ := (pyLen sentence : ℚ) / 2
      let best_split := (p :: ps).foldl
        (fun (acc x : ℕ) => if |(x : ℚ) - middle| < |(acc : ℚ) - middle| then x else acc) p
      let first_part := pyRStripSet (pyTake best_split sentence) [','] ++ "."
      let second_part := pyCapitalize (pyLStripSet (pyDrop best_split sentence) [',', ' '])
      [first_part, second_part]
  else [sentence]

/-- Overly-long-sentence correction (lines 758-784). -/
def correct_overly_long (corrected : String) : String :=
  pyJoin " " ((pySplitSentences corrected).foldr (fun s acc => fixLongSentence s ++ acc) [])

/-- Excessive-adverbs correction (lines 786-797). -/
def correct_excessive_adverbs (cr : CorrRand) (corrected : String) : String :=
  let ws := pySplitWs corrected
  pyJoin " "
    ((ws.enum.filter (fun pr => ! (pyEndsWith (pyLower pr.2) "ly" && cr.advDrop pr.1))).map (·.2))

def apologetic_correction_phrases : List String :=
  ["I'm so sorry about that.", "I'm very sorry.", "I apologize profusely.",
   "My deepest apologies.", "I'm sorry for the inconvenience.", "I'm sorry",
   "I apologize", "my apologies", "forgive me"]

/-- Overly-apologetic correction (lines 799-806). -/
def correct_overly_apologetic (cr : CorrRand) (corrected : String) : String :=
  let c1 := apologetic_correction_phrases.foldl (fun acc ph => pyReplace acc ph "Okay.") corrected
  if pyLower (pyStrip c1) ∈ (["okay.", "okay", ""] : List String) then cr.apolChoice else c1

def assumption_replacements : List (String × String) :=
  [("you must be", "it sounds like you might be"),
   ("you're probably", "perhaps you're"),
   ("i assume you", "it seems like you"),
   ("obviously you", "it appears you"),
   ("of course you", "it looks like you")]

/-- Making-assumptions correction (lines 808-821). -/
def correct_making_assumptions (corrected : String) : String :=
  let c1 := assumption_replacements.foldl (fun acc kv => pyReplace acc kv.1 kv.2) corrected
  if ¬ pyContains c1 "?" ∧
      (["it sounds like you might be", "perhaps you're"] : List String).any
        (fun p => pyContains (pyLower c1) p) then
    if pyEndsWith c1 "." then pyReplace c1 "." "?" else c1 ++ "?"
  else c1

/-- Unsolicited-advice correction (lines 823-830). -/
def correct_unsolicited_advice (corrected : String) : String :=
  let c1 := advice_detect_phrases.foldl (fun acc ph => pyReplace acc ph "you could consider") corrected
  if pyContains c1 "you could consider" then
    pyReplace c1 "you could consider" "Maybe you could consider"
  else c1

/-- Self-name-overuse correction (lines 832-841): keep the text through the
first (case-insensitive) occurrence, delete the exact strings `"Nyxie"` and
`"nyxie"` from the remainder, then strip. -/
def correct_self_name_overuse (corrected : String) : String :=
  let name_mentions := pyCountSub (pyLower corrected) "nyxie"
  if name_mentions > 1 then
    match pyFindSub (pyLower corrected) "nyxie" with
    | some first_occurrence =>
      let temp_corrected := pyTake (first_occurrence + 5) corrected
      let remaining_part := pyDrop (first_occurrence + 5) corrected
      pyStrip (temp_corrected ++ pyReplace (pyReplace remaining_part "Nyxie" "") "nyxie" "")
    | none => corrected
  else corrected

/-- Internal-process correction (lines 843-850). -/
def correct_internal_process (cr : CorrRand) (corrected : String) : String :=
  let c1 := internal_process_phrases.foldl (fun acc ph => pyReplace acc ph "") corrected
  let c2 := pyStrip c1
  if c2 = "" then cr.internalChoice else c2

/-- Emotional-tone-mismatch correction (lines 852-858). -/
def correct_tone_mismatch (corrected : String) : String :=
  let c1 := bot_positive_emotion.foldl (fun acc ph => pyReplace acc ph "Okay.") corrected
  if pyLower (pyStrip c1) ∈ (["okay.", "okay", ""] : List String) then "I understand." else c1

/-- One iteration of the correction loop (lines 539-858): dispatch on the
issue kind; an unknown kind is a no-op. -/
def applyCorrection (cr : CorrRand) (corrected : String) (issue : Issue) : Option String :=
  if issue.itype = "excessive_length" then correct_excessive_length cr issue.details corrected
  else if issue.itype = "overly_formal" then some (correct_overly_formal corrected)
  else if issue.itype = "repetitive_phrases" then correct_repetitive_phrases cr corrected
  else if issue.itype = "excessive_explanation" then some (correct_excessive_explanation corrected)
  else if issue.itype = "overly_complex" then some (correct_overly_complex corrected)
  else if issue.itype = "unnatural_structure" then some (correct_unnatural_structure corrected)
  else if issue.itype = "excessive_name_usage" then
    some (correct_excessive_name_usage issue.details corrected)
  else if issue.itype = "ai_phrases" then some (correct_ai_phrases issue.details corrected)
  else if issue.itype = "action_prefixes" then some (correct_action_markup corrected)
  else if issue.itype = "repetitive_sentence_structure" then correct_repetitive_structure cr corrected
  else if issue.itype = "choppy_sentences" then correct_choppy cr corrected
  else if issue.itype = "overly_long_sentence" then some (correct_overly_long corrected)
  else if issue.itype = "excessive_adverbs" then some (correct_excessive_adverbs cr corrected)
  else if issue.itype = "overly_apologetic" then some (correct_overly_apologetic cr corrected)
  else if issue.itype = "making_assumptions" then some (correct_making_assumptions corrected)
  else if issue.itype = "unsolicited_advice" then some (correct_unsolicited_advice corrected)
  else if issue.itype = "self_name_overuse" then some (correct_self_name_overuse corrected)
  else if issue.itype = "revealing_internal_process" then
    some (correct_internal_process cr corrected)
  else if issue.itype = "emotional_tone_mismatch" then some (correct_tone_mismatch corrected)
  else some corrected

/-- Models `_apply_corrections` (lines 526-860): the corrections run sequentially
over the evolving text, in detection order, and the result is stripped. -/
def apply_corrections (cr : CorrRand) (response : String) (issues : List Issue) : Option String :=
  (issues.foldlM (applyCorrection cr) response).map pyStrip

/-- Models `perform_self_reflection` (lines 237-266).  `enabled` is the injected
`SELF_REFLECTION_ENABLED` switch, `gate_draw` the `random.random()` draw and
`reflection_probability` the injected `SELF_REFLECTION_PROBABILITY`. -/
def perform_self_reflection (enabled : Bool) (gate_draw reflection_probability : ℚ)
    (cr : CorrRand) (draft_response user_message : String) : Option (Bool × String) :=
  if ¬ enabled ∨ gate_draw > reflection_probability then some (false, draft_response)
  else
    let issues := detect_response_issues draft_response user_message
    if issues = [] then some (false, draft_response)
    else (apply_corrections cr draft_response issues).map (fun t => (true, t))

/-- The multiplier the surprise event contributes to class `c`. -/
def surpriseMult (r : VarietyRand) (c : RType) : ℚ :=
  if r.surprise ∧ r.surpriseType = c then r.surpriseFactor else 1

/-! ## Concrete inputs used by witnesses and counterexamples -/

/-- Admissible variety draws: boosts 1.5, no surprise event. -/
def vr0 : VarietyRand := ⟨fun _ => 3/2, false, .medium, 2⟩

/-- Admissible randomness draws: unit flux, no shift, no wildcard. -/
def rr0 : RandomnessRand :=
  ⟨fun _ => 1, false, false, fun t => shiftLo false t, false, .medium, 3, fun _ => 1/2⟩

def lr0 : LenRand := ⟨vr0, rr0, 1/2⟩

def cfg0 : DRConfig := ⟨true, fun _ => 1/5⟩

def cfgOff : DRConfig := ⟨false, fun _ => 1/5⟩

def pZero : Probs := fun _ => 0

def pOne : Probs := fun _ => 1

/-- All weights already at the configured floor. -/
def pFloor : Probs := fun _ => 1/1000

/-- All weights at the configured cap (a possible variety-step output). -/
def p100 : Probs := fun _ => 100

/-- Admissible randomness draws whose flux factor on `medium` is 1.1. -/
def rnd110 : RandomnessRand :=
  ⟨fun t => if t = .medium then 11/10 else 1, false, false, fun t => shiftLo false t,
   false, .medium, 3, fun _ => 1/2⟩

/-- Fixed admissible correction draws: never merge, never fragment, never
drop adverbs. -/
def cr0 : CorrRand where
  lenKeep := 1
  rpSample := fun n => if n ≤ 1 then [] else if n = 2 then [1] else [1, 2]
  rsCombine := fun _ => false
  rsConj := fun _ => " and "
  rsFrag := fun _ => false
  rsFragLen := fun _ => 1
  chCombine := fun _ => false
  chConn := fun _ => " and "
  advDrop := fun _ => false
  apolChoice := "Got it."
  internalChoice := "Okay."

/-- Admissible correction draws that decline the first choppy merge and
accept the second with the connector `" and "`. -/
def cr7 : CorrRand := { cr0 with chCombine := fun i => i = 1 }

def c8_draft : String := "As an AI, I cannot have opinions, but I think pizza is nice."

def c8_trigger : String := "what do you think of pizza?"

/-- A 30-word message with long words: two connectives, 25 nine-letter
words, three one-word sentences. -/
def c4_witness_msg : String :=
  "however furthermore elephants elephants elephants elephants elephants elephants "
    ++ "elephants elephants elephants elephants elephants elephants elephants elephants "
    ++ "elephants elephants elephants elephants elephants elephants elephants elephants "
    ++ "elephants elephants elephants one. two! three?"

/-- A 30-word message with short words: two connectives, 25 one-letter
words, three terminators. -/
def c4_counter_msg : String :=
  "however furthermore a a a a a a a a a a a a a a a a a a a a a a a a a b. c! d?"

/-! ## Occurrence counting for the name-overuse claim -/

/-- Models `pat` occurs in `s` at position `p`. -/
def occursAt (s pat : List Char) (p : Nat) : Prop := pat <+: s.drop p

/-- Models `s` contains at most one occurrence of `pat` (any two positions agree). -/
def OccAtMostOnce (s pat : List Char) : Prop :=
  ∀ p q, occursAt s pat p → occursAt s pat q → p = q

/-- Decidable check that `pat` occurs somewhere in `s`. -/
def hasOccurrence (s pat : String) : Bool :=
  (List.range (s.data.length + 1)).any (fun p => pat.data.isPrefixOf (s.data.drop p))

/-- The issue emitted by the name-overuse detector (lines 498-503). -/
def c9NameIssue : Issue :=
  ⟨"self_name_overuse", "Response uses the bot's name 'Nyxie' too frequently."⟩

/-! ## Helper lemmas -/

theorem clampProb_mem (x : ℚ) : 1/1000 ≤ clampProb x ∧ clampProb x ≤ 100 := by
  unfold clampProb
  split_ifs with h1 h2 <;> constructor <;> linarith

theorem clampProb_mono {x y : ℚ} (h : x ≤ y) : clampProb x ≤ clampProb y := by
  unfold clampProb
  split_ifs <;> linarith

theorem clampProb_strict {x y : ℚ} (hxy : x < y) (hy : 1/1000 < y) (hx : x < 100) :
    clampProb x < clampProb y := by
  unfold clampProb
  split_ifs <;> linarith

theorem apply_randomness_floor (p : Probs) (r : RandomnessRand) (t : RType) :
    1/1000 ≤ apply_randomness p r t := by
  unfold apply_randomness
  dsimp only
  split_ifs <;> linarith

theorem rtype_mem_all (t : RType) : t ∈ RType.all := by
  cases t <;> simp [RType.all]

theorem scaleW_self (p : Probs) (t : RType) (f : ℚ) : scaleW p t f t = p t * f := by
  simp [scaleW, setW]

theorem scaleW_other (p : Probs) (t s : RType) (f : ℚ) (h : s ≠ t) : scaleW p t f s = p s := by
  simp [scaleW, setW, h]

theorem self_not_mem_transitions (c : RType) : c ∉ transitions c := by
  cases c <;> decide

theorem foldl_scaleW_not_mem (l : List RType) (f : RType → ℚ) (p : Probs) (c : RType)
    (h : c ∉ l) : (l.foldl (fun acc t => scaleW acc t (f t)) p) c = p c := by
  induction l generalizing p with
  | nil => rfl
  | cons a t ih =>
    simp only [List.foldl_cons]
    rw [ih _ (fun hm => h (List.mem_cons_of_mem a hm))]
    exact scaleW_other p a c (f a) (fun hc => h (hc ▸ List.mem_cons_self a t))

theorem surpriseMult_pos (r : VarietyRand) (h : r.admissible = true) (c : RType) :
    0 < surpriseMult r c := by
  unfold surpriseMult
  split_ifs with hs
  · have := h
    unfold VarietyRand.admissible at this
    simp only [Bool.and_eq_true, decide_eq_true_eq] at this
    linarith [this.1.2, this.2]
  · norm_num

theorem variety_at_repeat (p : Probs) (c : RType) (k : Nat) (r : VarietyRand) (hk : 0 < k) :
    adjust_probabilities_for_variety ⟨some c, k⟩ p r c
      = clampProb (p c * reductionFactor k * surpriseMult r c) := by
  unfold adjust_probabilities_for_variety
  dsimp only
  rw [if_pos hk]
  have hbase : ((transitions c).foldl (fun acc t => scaleW acc t (r.boost t))
      (scaleW p c (reductionFactor k))) c = p c * reductionFactor k := by
    rw [foldl_scaleW_not_mem _ _ _ _ (self_not_mem_transitions c)]
    exact scaleW_self p c (reductionFactor k)
  by_cases hs : r.surprise = true
  · rw [if_pos hs]
    by_cases hc : r.surpriseType = c
    · rw [hc, scaleW_self, hbase]
      unfold surpriseMult
      rw [if_pos ⟨hs, hc⟩]
    · rw [scaleW_other _ _ _ _ (fun h => hc h.symm), hbase]
      unfold surpriseMult
      rw [if_neg (fun h => hc h.2), mul_one]
  · rw [if_neg hs, hbase]
    unfold surpriseMult
    rw [if_neg (fun h => hs h.1), mul_one]

theorem variety_at_norepeat (p : Probs) (c : RType) (r : VarietyRand) :
    adjust_probabilities_for_variety ⟨some c, 0⟩ p r c
      = clampProb (p c * surpriseMult r c) := by
  unfold adjust_probabilities_for_variety
  dsimp only
  rw [if_neg (show ¬((0 : ℕ) > 0) from by omega)]
  by_cases hs : r.surprise = true
  · rw [if_pos hs]
    by_cases hc : r.surpriseType = c
    · rw [hc, scaleW_self]
      unfold surpriseMult
      rw [if_pos ⟨hs, hc⟩]
    · rw [scaleW_other _ _ _ _ (fun h => hc h.symm)]
      unfold surpriseMult
      rw [if_neg (fun h => hc h.2), mul_one]
  · rw [if_neg hs]
    unfold surpriseMult
    rw [if_neg (fun h => hs h.1), mul_one]

theorem reductionFactor_lt_one (k : Nat) : reductionFactor k < 1 := by
  unfold reductionFactor
  have hk : (0 : ℚ) ≤ (k : ℚ) := Nat.cast_nonneg k
  apply max_lt <;> nlinarith

theorem reductionFactor_pos (k : Nat) : 0 < reductionFactor k :=
  lt_of_lt_of_le (by norm_num) (le_max_left _ _)

theorem reductionFactor_antitone {k k' : Nat} (h : k ≤ k') :
    reductionFactor k' ≤ reductionFactor k := by
  unfold reductionFactor
  have : (k : ℚ) ≤ (k' : ℚ) := by exact_mod_cast h
  apply max_le_max (le_refl _)
  nlinarith

theorem foldl_total_ne_zero (p : Probs) (h : ∀ t, 1/1000 ≤ p t) :
    RType.all.foldl (fun a t => a + p t) 0 ≠ 0 := by
  have hes := h .extremely_short
  have hss := h .slightly_short
  have hm := h .medium
  have hsl := h .slightly_long
  have hl := h .long
  simp only [RType.all, List.foldl]
  intro h0
  linarith

theorem cr7_admissible : CorrRand.Admissible cr7 := by
  refine ⟨⟨by decide, by decide⟩, ?_,
    fun i => (by decide : (" and " : String) ∈ rsConjunctions),
    fun i => show (1 : Nat) ≤ 1 ∧ (1 : Nat) ≤ 3 by omega,
    fun i => (by decide : (" and " : String) ∈ chopConnectors),
    by decide, by decide⟩
  intro n
  by_cases h1 : n ≤ 1
  · have he : cr7.rpSample n = [] := by simp [cr7, cr0, h1]
    rw [he]
    exact ⟨by simp; omega, by decide, by intro i hi; simp at hi⟩
  · by_cases h2 : n = 2
    · have he : cr7.rpSample n = [1] := by simp [cr7, cr0, h1, h2]
      rw [he]
      exact ⟨by rw [h2]; decide, by decide, by intro i hi; simp at hi; omega⟩
    · have he : cr7.rpSample n = [1, 2] := by simp [cr7, cr0, h1, h2]
      rw [he]
      refine ⟨by simp; omega, by decide, ?_⟩
      intro i hi
      simp at hi
      rcases hi with h | h <;> omega

theorem isPrefixOf_true_iff {l₁ l₂ : List Char} : l₁.isPrefixOf l₂ = true ↔ l₁ <+: l₂ :=
  List.isPrefixOf_iff_prefix

theorem hasOccurrence_false {s pat : String} (hpat : pat.data ≠ [])
    (h : hasOccurrence s pat = false) : ∀ p, ¬ occursAt s.data pat.data p := by
  intro p hp
  unfold hasOccurrence at h
  rw [List.any_eq_false] at h
  by_cases hple : p ≤ s.data.length
  · have hmem : p ∈ List.range (s.data.length + 1) := by
      rw [List.mem_range]
      omega
    have := h p hmem
    rw [Bool.not_eq_true, ← Bool.not_eq_true] at this
    exact this (isPrefixOf_true_iff.mpr hp)
  · have hdrop : s.data.drop p = [] := List.drop_eq_nil_of_le (by omega)
    unfold occursAt at hp
    rw [hdrop] at hp
    exact hpat (List.prefix_nil.mp hp)

theorem findSubL_first {pat : List Char} :
    ∀ {s : List Char} {i : Nat}, findSubL pat s = some i →
      pat <+: s.drop i ∧ ∀ j, j < i → ¬ pat <+: s.drop j := by
  intro s
  induction s with
  | nil =>
    intro i h
    unfold findSubL at h
    split at h
    · rename_i hpre
      injection h with h
      subst h
      exact ⟨isPrefixOf_true_iff.mp hpre, fun j hj => absurd hj (by omega)⟩
    · exact absurd h (by simp)
  | cons c t ih =>
    intro i h
    unfold findSubL at h
    split at h
    · rename_i hpre
      injection h with h
      subst h
      exact ⟨isPrefixOf_true_iff.mp hpre, fun j hj => absurd hj (by omega)⟩
    · rename_i hpre
      rw [Option.map_eq_some'] at h
      obtain ⟨i', hi', rfl⟩ := h
      obtain ⟨h1, h2⟩ := ih hi'
      refine ⟨h1, ?_⟩
      intro j hj
      match j with
      | 0 =>
        intro hcontra
        exact hpre (isPrefixOf_true_iff.mpr hcontra)
      | j' + 1 =>
        exact h2 j' (by omega)

theorem prefix_extend {l x v : List Char} (h : l <+: x) : l <+: x ++ v := by
  obtain ⟨r, hr⟩ := h
  exact ⟨r ++ v, by rw [← List.append_assoc, hr]⟩

theorem take_is_prefix_of (l : List Char) (n : Nat) : l.take n <+: l :=
  ⟨l.drop n, List.take_append_drop n l⟩

theorem occAtMostOnce_of_middle {u t v s pat : List Char} (hpat : pat ≠ [])
    (hs : s = u ++ t ++ v) (h : OccAtMostOnce s pat) : OccAtMostOnce t pat := by
  have key : ∀ w, occursAt t pat w → occursAt s pat (u.length + w) := by
    intro w hw
    unfold occursAt at hw ⊢
    subst hs
    rw [List.append_assoc, List.drop_append]
    by_cases hw2 : w ≤ t.length
    · rw [List.drop_append_of_le_length hw2]
      exact prefix_extend hw
    · have hnil : t.drop w = [] := List.drop_eq_nil_of_le (by omega)
      rw [hnil] at hw
      exact absurd (List.prefix_nil.mp hw) hpat
  intro p q hp hq
  have := h _ _ (key p hp) (key q hq)
  omega

theorem stripL_middle (l : List Char) : ∃ u v, l = u ++ stripL l ++ v := by
  refine ⟨l.takeWhile pyIsSpace,
    ((l.dropWhile pyIsSpace).reverse.takeWhile pyIsSpace).reverse, ?_⟩
  unfold stripL
  have h2 : (l.dropWhile pyIsSpace).reverse
      = (l.dropWhile pyIsSpace).reverse.takeWhile pyIsSpace
        ++ (l.dropWhile pyIsSpace).reverse.dropWhile pyIsSpace :=
    (List.takeWhile_append_dropWhile _ _).symm
  have h3 : l.dropWhile pyIsSpace
      = ((l.dropWhile pyIsSpace).reverse.dropWhile pyIsSpace).reverse
        ++ ((l.dropWhile pyIsSpace).reverse.takeWhile pyIsSpace).reverse := by
    have h4 := congrArg List.reverse h2
    rwa [List.reverse_reverse, List.reverse_append] at h4
  calc l = l.takeWhile pyIsSpace ++ l.dropWhile pyIsSpace :=
        (List.takeWhile_append_dropWhile _ _).symm
    _ = l.takeWhile pyIsSpace
        ++ (((l.dropWhile pyIsSpace).reverse.dropWhile pyIsSpace).reverse
          ++ ((l.dropWhile pyIsSpace).reverse.takeWhile pyIsSpace).reverse) := by rw [← h3]
    _ = l.takeWhile pyIsSpace
        ++ ((l.dropWhile pyIsSpace).reverse.dropWhile pyIsSpace).reverse
        ++ ((l.dropWhile pyIsSpace).reverse.takeWhile pyIsSpace).reverse := by
        rw [List.append_assoc]

theorem foldlM_single (f : String → Issue → Option String) (b : String) (a : Issue) :
    List.foldlM f b [a] = f b a := by
  simp [List.foldlM]

/-- If `"nyxie"` first occurs in `L` at `i`, and `B` contains no occurrence,
then `L.take (i+5) ++ B` contains exactly the one occurrence at `i`: an
occurrence cannot sit strictly inside the junction because no proper prefix
of `"nyxie"` is one of its suffixes. -/
theorem nyxie_occ_unique {L B : List Char} {i : Nat}
    (hfirst : "nyxie".data <+: L.drop i)
    (hmin : ∀ j, j < i → ¬ "nyxie".data <+: L.drop j)
    (hB : ∀ w, ¬ occursAt B "nyxie".data w) :
    ∀ p, occursAt (L.take (i + 5) ++ B) "nyxie".data p → p = i := by
  have h5 : ("nyxie".data).length = 5 := rfl
  obtain ⟨r, hr⟩ := hfirst
  have hLlen : i + 5 ≤ L.length := by
    have hlen := congrArg List.length hr
    rw [List.length_append, List.length_drop, h5] at hlen
    omega
  have hAlen : (L.take (i + 5)).length = i + 5 := by
    rw [List.length_take]
    omega
  have hAX : L.take (i + 5) = L.take i ++ "nyxie".data := by
    rw [List.take_add]
    congr 1
    rw [← hr]
    exact List.take_left' h5
  have hXlen : (L.take i).length = i := by
    rw [List.length_take]
    omega
  intro p hp
  unfold occursAt at hp
  by_cases hc1 : p ≤ i
  · rw [List.drop_append_of_le_length (by omega)] at hp
    have hconf : "nyxie".data <+: (L.take (i + 5)).drop p := by
      have heq := List.prefix_iff_eq_take.mp hp
      rw [h5, List.take_append_of_le_length (by rw [List.length_drop]; omega)] at heq
      rw [heq]
      exact take_is_prefix_of _ _
    have hL : "nyxie".data <+: L.drop p := by
      rw [List.drop_take] at hconf
      exact hconf.trans (take_is_prefix_of _ _)
    by_cases hpi : p < i
    · exact absurd hL (hmin p hpi)
    · omega
  · by_cases hc2 : i + 5 ≤ p
    · exfalso
      have hpe : p = (L.take (i + 5)).length + (p - (i + 5)) := by omega
      rw [hpe, List.drop_append] at hp
      exact hB (p - (i + 5)) hp
    · exfalso
      have hk1 : 1 ≤ p - i := by omega
      have hk2 : p - i ≤ 4 := by omega
      have hsplit : (L.take (i + 5) ++ B).drop p = "nyxie".data.drop (p - i) ++ B := by
        rw [hAX, List.append_assoc]
        have hstep2 : (L.take i ++ ("nyxie".data ++ B)).drop p
            = ("nyxie".data ++ B).drop (p - i) := by
          conv_lhs => rw [show p = (L.take i).length + (p - i) from by omega]
          rw [List.drop_append]
        rw [hstep2]
        exact List.drop_append_of_le_length (by rw [h5]; omega)
      rw [hsplit] at hp
      obtain ⟨r2, hr2⟩ := hp
      have htake := congrArg (List.take (5 - (p - i))) hr2
      rw [List.take_append_of_le_length (by rw [h5]; omega),
        List.take_left' (by rw [List.length_drop, h5])] at htake
      set k := p - i with hkdef
      interval_cases k <;> exact absurd htake (by decide)

/-! ## Claims about the style selector -/

/-- C1: for every message text and optional context, `get_language_level`
returns the fixed tier `"A1"`, and the complexity-guidance prompt fragment
built by `format_language_level_for_prompt` embeds exactly the A1
instruction text. -/
theorem claim_c1_language_level_pinned :
    ∀ (msg : String) (ctx : Option PyContext),
      get_language_level msg ctx = "A1" ∧
      format_language_level_for_prompt msg ctx
        = languageLevelPromptPre ++ get_language_level_instructions "A1"
            ++ languageLevelPromptPost :=
  fun _ _ => ⟨rfl, rfl⟩

/-- C2 (amended): after the variety-adjustment step every weight lies in
`[0.001, 100.0]`, and after the randomness-adjustment step every weight is
at least `0.001`; the randomness step enforces no upper cap. -/
theorem claim_c2_amended_clamp_bounds :
    (∀ (st : DRState) (p : Probs) (r : VarietyRand) (t : RType),
      1/1000 ≤ adjust_probabilities_for_variety st p r t ∧
        adjust_probabilities_for_variety st p r t ≤ 100) ∧
    (∀ (p : Probs) (r : RandomnessRand) (t : RType),
      1/1000 ≤ apply_randomness p r t) := by
  constructor
  · intro st p r t
    show 1/1000 ≤ clampProb _ ∧ clampProb _ ≤ 100
    exact clampProb_mem _
  · intro p r t
    exact apply_randomness_floor p r t

set_option maxRecDepth 20000 in
/-- C2 counterexample: with the admissible flux draw 1.1 the randomness
step takes a weight of 100.0 (a value the variety clamp can output) to 110,
so not every weight stays within `[0.001, 100.0]` after that step. -/
theorem claim_c2_counterexample :
    rnd110.admissible = true ∧
    apply_randomness p100 rnd110 .medium = 110 ∧
    ¬ apply_randomness p100 rnd110 .medium ≤ 100 :=
  ⟨of_decide_eq_true (by with_unfolding_all rfl),
   of_decide_eq_true (by with_unfolding_all rfl),
   of_decide_eq_true (by with_unfolding_all rfl)⟩

/-- C3: length selection always succeeds and returns one of the five
declared classes, for every config, state, message (including `""`) and
absent context; and whenever the cumulative-distribution scan selects no
class, `_select_response_type` falls back to `medium`. -/
theorem claim_c3_selection_total :
    (∀ (cfg : DRConfig) (st : DRState) (msg : String) (ctx : Option PyContext) (r : LenRand),
      ∃ rt st', get_response_type cfg st msg ctx r = some (rt, st') ∧ rt ∈ RType.all) ∧
    (∀ (p : Probs) (rand_val : ℚ),
      selectScan (RType.all.map (fun t => (t, p t))) rand_val = none →
        select_response_type p rand_val = RType.medium) := by
  constructor
  · intro cfg st msg ctx r
    unfold get_response_type
    by_cases hE : cfg.dynamicEnabled = true
    · rw [if_neg (by simp [hE])]
      dsimp only
      rw [if_neg (foldl_total_ne_zero _ (fun t => apply_randomness_floor _ _ t))]
      exact ⟨_, _, rfl, rtype_mem_all _⟩
    · rw [if_pos (by simp [hE])]
      exact ⟨.medium, st, rfl, rtype_mem_all _⟩
  · intro p rand_val h
    unfold select_response_type
    rw [h]
    rfl

set_option maxRecDepth 20000 in
/-- C3 witness: a concrete run of the pipeline, and the concrete fallback
(an all-zero table, whose cumulative scan never fires). -/
theorem claim_c3_witness :
    (∃ rt st', get_response_type cfg0 ⟨none, 0⟩ "" none lr0 = some (rt, st')
        ∧ rt ∈ RType.all) ∧
    select_response_type pZero (1/2) = RType.medium :=
  ⟨claim_c3_selection_total.1 cfg0 ⟨none, 0⟩ "" none lr0,
   claim_c3_selection_total.2 pZero (1/2) (of_decide_eq_true (by with_unfolding_all rfl))⟩

/-- C4 (amended): `estimate_message_complexity` is a deterministic pure
function of its text; `"Hi"` scores 3 and yields `"simple"`; and a 30-word
message containing `"however"` and `"furthermore"` with exactly 3 sentence
terminators yields `"complex"` provided its average word length exceeds
5.5 — with shorter words such a message scores only 8 and yields
`"medium"`. -/
theorem claim_c4_amended_complexity :
    (∀ s t : String, s = t → estimate_message_complexity s = estimate_message_complexity t) ∧
    estimate_message_complexity "Hi" = "simple" ∧
    (∀ m : String,
      word_count m = 30 →
      pyContains (pyLower m) "however" = true →
      pyContains (pyLower m) "furthermore" = true →
      sentence_count m = 3 →
      (11/2 : ℚ) < avg_word_length m →
      estimate_message_complexity m = "complex") := by
  refine ⟨fun s t h => h ▸ rfl, of_decide_eq_true (by with_unfolding_all rfl), ?_⟩
  intro m hwc h1 h2 hsc havg
  have hcic : 2 ≤ complex_indicator_count m := by
    unfold complex_indicator_count complex_indicators
    simp only [List.countP_cons, List.countP_nil, h1, h2, if_true]
    split_ifs <;> omega
  have hmin : 2 ≤ min 3 (complex_indicator_count m) := le_min (by omega) hcic
  have hscore : 10 ≤ complexity_score m := by
    unfold complexity_score
    rw [hwc, hsc]
    rw [if_neg (by omega), if_neg (by omega), if_neg (by linarith), if_neg (by linarith),
        if_neg (by omega), if_pos (by omega)]
    omega
  unfold estimate_message_complexity
  rw [if_neg (by omega), if_neg (by omega)]

set_option maxRecDepth 80000 in
set_option maxHeartbeats 3200000 in
/-- C4 witness: the long-word 30-word message satisfies every hypothesis
and is classified `"complex"` by the theorem. -/
theorem claim_c4_witness :
    word_count c4_witness_msg = 30 ∧
    sentence_count c4_witness_msg = 3 ∧
    (11/2 : ℚ) < avg_word_length c4_witness_msg ∧
    estimate_message_complexity c4_witness_msg = "complex" :=
  ⟨of_decide_eq_true (by with_unfolding_all rfl),
   of_decide_eq_true (by with_unfolding_all rfl),
   of_decide_eq_true (by with_unfolding_all rfl),
   claim_c4_amended_complexity.2.2 c4_witness_msg
     (of_decide_eq_true (by with_unfolding_all rfl))
     (of_decide_eq_true (by with_unfolding_all rfl))
     (of_decide_eq_true (by with_unfolding_all rfl))
     (of_decide_eq_true (by with_unfolding_all rfl))
     (of_decide_eq_true (by with_unfolding_all rfl))⟩

set_option maxRecDepth 80000 in
set_option maxHeartbeats 3200000 in
/-- C4 counterexample: a 30-word message containing `"however"` and
`"furthermore"` with 3 sentence terminators whose words are short is
classified `"medium"`, not `"complex"` — its score is 3 (words) + 1
(average word length < 4) + 2 (sentences) + 2 (connectives) = 8. -/
theorem claim_c4_counterexample :
    word_count c4_counter_msg = 30 ∧
    pyContains (pyLower c4_counter_msg) "however" = true ∧
    pyContains (pyLower c4_counter_msg) "furthermore" = true ∧
    sentence_count c4_counter_msg = 3 ∧
    estimate_message_complexity c4_counter_msg = "medium" :=
  ⟨of_decide_eq_true (by with_unfolding_all rfl),
   of_decide_eq_true (by with_unfolding_all rfl),
   of_decide_eq_true (by with_unfolding_all rfl),
   of_decide_eq_true (by with_unfolding_all rfl),
   of_decide_eq_true (by with_unfolding_all rfl)⟩

/-- C5 (amended): with the weight of the repeated class non-negative and
admissible draws, the post-variety weight under a repeat (`count ≥ 1`) never
exceeds the weight without the repeat; it is strictly lower as long as the
no-repeat weight is above the 0.001 floor and the suppressed pre-clamp value
is below the 100.0 cap; the multiplier `max(0.1, 0.75 − repeats·0.15)` is
below 1; and the suppression is monotone in the repeat count.  At the clamp
bounds the two weights coincide. -/
theorem claim_c5_amended_suppression :
    ∀ (p : Probs) (c : RType) (k : Nat) (r : VarietyRand),
      r.admissible = true → 1 ≤ k → 0 ≤ p c →
      reductionFactor k < 1 ∧
      adjust_probabilities_for_variety ⟨some c, k⟩ p r c
        ≤ adjust_probabilities_for_variety ⟨some c, 0⟩ p r c ∧
      (1/1000 < p c * surpriseMult r c →
        p c * reductionFactor k * surpriseMult r c < 100 →
        adjust_probabilities_for_variety ⟨some c, k⟩ p r c
          < adjust_probabilities_for_variety ⟨some c, 0⟩ p r c) ∧
      (∀ k', k ≤ k' →
        adjust_probabilities_for_variety ⟨some c, k'⟩ p r c
          ≤ adjust_probabilities_for_variety ⟨some c, k⟩ p r c) := by
  intro p c k r hadm hk hp
  have hsm := surpriseMult_pos r hadm c
  have hrw := variety_at_repeat p c k r (by omega)
  have hrw0 := variety_at_norepeat p c r
  have hmulnn : 0 ≤ p c * surpriseMult r c := mul_nonneg hp (le_of_lt hsm)
  refine ⟨reductionFactor_lt_one k, ?_, ?_, ?_⟩
  · rw [hrw, hrw0]
    apply clampProb_mono
    calc p c * reductionFactor k * surpriseMult r c
        = (p c * surpriseMult r c) * reductionFactor k := by ring
      _ ≤ (p c * surpriseMult r c) * 1 := by
          apply mul_le_mul_of_nonneg_left (le_of_lt (reductionFactor_lt_one k)) hmulnn
      _ = p c * surpriseMult r c := mul_one _
  · intro hfloor hcap
    rw [hrw, hrw0]
    apply clampProb_strict _ hfloor hcap
    have hmulpos : 0 < p c * surpriseMult r c := by linarith
    calc p c * reductionFactor k * surpriseMult r c
        = (p c * surpriseMult r c) * reductionFactor k := by ring
      _ < (p c * surpriseMult r c) * 1 := by
          exact mul_lt_mul_of_pos_left (reductionFactor_lt_one k) hmulpos
      _ = p c * surpriseMult r c := mul_one _
  · intro k' hk'
    rw [hrw, variety_at_repeat p c k' r (by omega)]
    apply clampProb_mono
    calc p c * reductionFactor k' * surpriseMult r c
        = (p c * surpriseMult r c) * reductionFactor k' := by ring
      _ ≤ (p c * surpriseMult r c) * reductionFactor k := by
          exact mul_le_mul_of_nonneg_left (reductionFactor_antitone hk') hmulnn
      _ = p c * reductionFactor k * surpriseMult r c := by ring

set_option maxRecDepth 20000 in
/-- C5 witness: weights 1, one repeat, admissible draws: the suppressed
weight 0.6 is strictly below the unsuppressed weight 1. -/
theorem claim_c5_witness :
    reductionFactor 1 < 1 ∧
    adjust_probabilities_for_variety ⟨some .medium, 1⟩ pOne vr0 .medium
      ≤ adjust_probabilities_for_variety ⟨some .medium, 0⟩ pOne vr0 .medium ∧
    adjust_probabilities_for_variety ⟨some .medium, 1⟩ pOne vr0 .medium
      < adjust_probabilities_for_variety ⟨some .medium, 0⟩ pOne vr0 .medium ∧
    adjust_probabilities_for_variety ⟨some .medium, 3⟩ pOne vr0 .medium
      ≤ adjust_probabilities_for_variety ⟨some .medium, 1⟩ pOne vr0 .medium := by
  have h := claim_c5_amended_suppression pOne .medium 1 vr0
    (of_decide_eq_true (by with_unfolding_all rfl)) (by decide) (by norm_num [pOne])
  exact ⟨h.1, h.2.1,
    h.2.2.1 (of_decide_eq_true (by with_unfolding_all rfl))
      (of_decide_eq_true (by with_unfolding_all rfl)),
    h.2.2.2 3 (by norm_num)⟩

set_option maxRecDepth 20000 in
/-- C5 counterexample: with every weight already at the floor 0.001 and
admissible draws (no surprise), the suppressed and unsuppressed post-variety
weights are both clamped to 0.001 — equal, not strictly lower. -/
theorem claim_c5_counterexample :
    vr0.admissible = true ∧
    adjust_probabilities_for_variety ⟨some .medium, 1⟩ pFloor vr0 .medium
      = adjust_probabilities_for_variety ⟨some .medium, 0⟩ pFloor vr0 .medium :=
  ⟨of_decide_eq_true (by with_unfolding_all rfl),
   of_decide_eq_true (by with_unfolding_all rfl)⟩

/-! ## Claims about the response critic -/

/-- C6: whenever issue detection finds nothing in a draft, the reflect
operation returns the flag `false` and the draft byte-for-byte unchanged,
for every gate configuration and every trigger message. -/
theorem claim_c6_reflect_identity :
    ∀ (enabled : Bool) (gate_draw reflection_probability : ℚ) (cr : CorrRand)
      (draft_response user_message : String),
      detect_response_issues draft_response user_message = [] →
      perform_self_reflection enabled gate_draw reflection_probability cr
        draft_response user_message = some (false, draft_response) := by
  intro e g pr cr d u h
  unfold perform_self_reflection
  split_ifs with h1
  · rfl
  · dsimp only
    rw [h, if_pos rfl]

set_option maxRecDepth 40000 in
/-- C6 witness: a concrete issue-free draft passes through reflect unchanged. -/
theorem claim_c6_witness :
    perform_self_reflection true 0 (1/2) cr0 "Sure, that works for me." "does tomorrow work?"
      = some (false, "Sure, that works for me.") :=
  claim_c6_reflect_identity true 0 (1/2) cr0 "Sure, that works for me." "does tomorrow work?"
    (of_decide_eq_true (by with_unfolding_all rfl))

set_option maxRecDepth 40000 in
/-- C7 fails on the code: on the draft `"Hi. Go. "` (three split sentences,
the last empty because the draft ends in terminator-plus-space) with the
casual trigger `"ok"`, detection reports `choppy_sentences`, and the
correction — under the admissible draws `cr7` (decline the first merge,
accept the second with connector `" and "`) — evaluates `sentences[i+1][0]`
on the empty sentence: the modelled `IndexError` (`none`).  The reflect
operation can raise. -/
theorem claim_c7_reflect_crash :
    CorrRand.Admissible cr7 ∧
    detect_response_issues "Hi. Go. " "ok"
      = [⟨"choppy_sentences",
          "Response uses too many short, simple sentences without variation"⟩] ∧
    perform_self_reflection true 0 (1/2) cr7 "Hi. Go. " "ok" = none :=
  ⟨cr7_admissible,
   of_decide_eq_true (by with_unfolding_all rfl),
   of_decide_eq_true (by with_unfolding_all rfl)⟩

set_option maxRecDepth 80000 in
/-- C8: on the pizza scenario, detection reports an `ai_phrases` issue, and
the corrections for the detected issues yield
`"As an AI, I can't have opinions, but I think pizza is nice."`, which
contains neither the string `"as an AI"` nor the string `"I cannot"`
(the replacement of `"I cannot"` by `"I can't"` succeeds; the deletion of
`"as an AI"` misses the capitalized `"As an AI"` because `str.replace` is
case-sensitive, which leaves no occurrence of the exact quoted strings). -/
theorem claim_c8_ai_phrase_scenario :
    (⟨"ai_phrases", "Response contains AI-like phrase: 'as an AI'"⟩ : Issue)
        ∈ detect_response_issues c8_draft c8_trigger ∧
    apply_corrections cr0 c8_draft (detect_response_issues c8_draft c8_trigger)
      = some "As an AI, I can't have opinions, but I think pizza is nice." ∧
    pyContains "As an AI, I can't have opinions, but I think pizza is nice." "as an AI" = false ∧
    pyContains "As an AI, I can't have opinions, but I think pizza is nice." "I cannot" = false :=
  ⟨of_decide_eq_true (by with_unfolding_all rfl),
   of_decide_eq_true (by with_unfolding_all rfl),
   of_decide_eq_true (by with_unfolding_all rfl),
   of_decide_eq_true (by with_unfolding_all rfl)⟩

/-- C9 (amended): for a draft whose only detected issue is the
name-overuse check (`detect = [self_name_overuse]`, so at least two
case-insensitive occurrences of `"nyxie"` in a sub-200-character draft),
the corrected draft uses the name at most once, provided deleting the
exact-case strings `"Nyxie"`/`"nyxie"` from the text after the first
occurrence leaves no residual case-insensitive occurrence.  (Without that
proviso the deletions can splice a new occurrence together, and with other
issues present a later correction can rebuild the name.) -/
theorem claim_c9_amended_name_overuse :
    ∀ (cr : CorrRand) (draft trigger : String) (i : Nat),
      detect_response_issues draft trigger = [c9NameIssue] →
      1 < pyCountSub (pyLower draft) "nyxie" →
      pyFindSub (pyLower draft) "nyxie" = some i →
      hasOccurrence
        (pyLower (pyReplace (pyReplace (pyDrop (i + 5) draft) "Nyxie" "") "nyxie" ""))
        "nyxie" = false →
      ∃ out, apply_corrections cr draft (detect_response_issues draft trigger) = some out ∧
        OccAtMostOnce (pyLower out).data ("nyxie".data) := by
  intro cr draft trigger i hdet hcount hfind hclean
  rw [hdet]
  have hd : applyCorrection cr draft c9NameIssue
      = some (correct_self_name_overuse draft) := rfl
  have hname : correct_self_name_overuse draft
      = pyStrip (pyTake (i + 5) draft
          ++ pyReplace (pyReplace (pyDrop (i + 5) draft) "Nyxie" "") "nyxie" "") := by
    unfold correct_self_name_overuse
    dsimp only
    rw [if_pos hcount, hfind]
  have hstep : apply_corrections cr draft [c9NameIssue]
      = some (pyStrip (pyStrip (pyTake (i + 5) draft
          ++ pyReplace (pyReplace (pyDrop (i + 5) draft) "Nyxie" "") "nyxie" ""))) := by
    unfold apply_corrections
    rw [foldlM_single, hd, hname]
    rfl
  refine ⟨_, hstep, ?_⟩
  -- the remaining goal: at most one occurrence in the lowered output
  have hfind' : findSubL ("nyxie".data) ((pyLower draft).data) = some i := hfind
  obtain ⟨hfirst, hmin⟩ := findSubL_first hfind'
  have hB := hasOccurrence_false (by decide) hclean
  have hmain : ∀ p, occursAt
      (((pyLower draft).data).take (i + 5)
        ++ (pyLower (pyReplace (pyReplace (pyDrop (i + 5) draft) "Nyxie" "") "nyxie" "")).data)
      ("nyxie".data) p → p = i :=
    nyxie_occ_unique hfirst hmin hB
  have hy : List.map Char.toLower (pyTake (i + 5) draft
        ++ pyReplace (pyReplace (pyDrop (i + 5) draft) "Nyxie" "") "nyxie" "").data
      = ((pyLower draft).data).take (i + 5)
        ++ (pyLower (pyReplace (pyReplace (pyDrop (i + 5) draft) "Nyxie" "") "nyxie" "")).data := by
    show List.map Char.toLower (draft.data.take (i + 5)
        ++ (pyReplace (pyReplace (pyDrop (i + 5) draft) "Nyxie" "") "nyxie" "").data) = _
    rw [List.map_append, List.map_take]
    rfl
  have hAB : OccAtMostOnce (List.map Char.toLower (pyTake (i + 5) draft
        ++ pyReplace (pyReplace (pyDrop (i + 5) draft) "Nyxie" "") "nyxie" "").data)
      ("nyxie".data) := by
    rw [hy]
    intro p q hp hq
    rw [hmain p hp, hmain q hq]
  set y := (pyTake (i + 5) draft
    ++ pyReplace (pyReplace (pyDrop (i + 5) draft) "Nyxie" "") "nyxie" "").data with hydef
  obtain ⟨u1, v1, h1⟩ := stripL_middle y
  obtain ⟨u2, v2, h2⟩ := stripL_middle (stripL y)
  have hm1 : List.map Char.toLower y
      = List.map Char.toLower u1 ++ List.map Char.toLower (stripL y)
        ++ List.map Char.toLower v1 := by
    rw [← List.map_append, ← List.map_append, ← h1]
  have t1 := occAtMostOnce_of_middle (by decide) hm1 hAB
  have hm2 : List.map Char.toLower (stripL y)
      = List.map Char.toLower u2 ++ List.map Char.toLower (stripL (stripL y))
        ++ List.map Char.toLower v2 := by
    rw [← List.map_append, ← List.map_append, ← h2]
  exact occAtMostOnce_of_middle (by decide) hm2 t1

set_option maxRecDepth 40000 in
set_option maxHeartbeats 1600000 in
/-- C9 witness: on `"Nyxie ok Nyxie ok Nyxie"` (name three times, only the
name-overuse issue fires, deletions leave no residue) the corrected draft
uses the name at most once. -/
theorem claim_c9_witness :
    ∃ out, apply_corrections cr0 "Nyxie ok Nyxie ok Nyxie"
        (detect_response_issues "Nyxie ok Nyxie ok Nyxie" "ok") = some out ∧
      OccAtMostOnce (pyLower out).data ("nyxie".data) :=
  claim_c9_amended_name_overuse cr0 "Nyxie ok Nyxie ok Nyxie" "ok" 0
    (of_decide_eq_true (by with_unfolding_all rfl))
    (of_decide_eq_true (by with_unfolding_all rfl))
    (of_decide_eq_true (by with_unfolding_all rfl))
    (of_decide_eq_true (by with_unfolding_all rfl))

set_option maxRecDepth 40000 in
set_option maxHeartbeats 1600000 in
/-- C9 counterexample: the draft `"Nyxie Nyxie NyNyxiexie"` (21 < 200
characters, the name three times) is corrected to `"Nyxie  Nyxie"`: deleting
the second `"Nyxie"` inside `"NyNyxiexie"` splices `"Ny"` and `"xie"` into a
fresh occurrence, so the corrected draft still uses the name twice
(occurrences at positions 0 and 7). -/
theorem claim_c9_counterexample :
    pyLen "Nyxie Nyxie NyNyxiexie" < 200 ∧
    pyCountSub (pyLower "Nyxie Nyxie NyNyxiexie") "nyxie" = 3 ∧
    apply_corrections cr0 "Nyxie Nyxie NyNyxiexie"
        (detect_response_issues "Nyxie Nyxie NyNyxiexie" "ok") = some "Nyxie  Nyxie" ∧
    ¬ OccAtMostOnce (pyLower "Nyxie  Nyxie").data ("nyxie".data) := by
  refine ⟨of_decide_eq_true (by with_unfolding_all rfl),
    of_decide_eq_true (by with_unfolding_all rfl),
    of_decide_eq_true (by with_unfolding_all rfl), ?_⟩
  intro h
  have hocc0 : occursAt (pyLower "Nyxie  Nyxie").data ("nyxie".data) 0 :=
    ⟨"  nyxie".data, by with_unfolding_all rfl⟩
  have hocc7 : occursAt (pyLower "Nyxie  Nyxie").data ("nyxie".data) 7 :=
    ⟨([] : List Char), by with_unfolding_all rfl⟩
  exact absurd (h 0 7 hocc0 hocc7) (by decide)

/-- C10: with the dynamic-message-length switch off, `get_response_type`
returns `medium` for every message and context and leaves the selector
state (`last_response_type`, `consecutive_same_type_count`) unchanged. -/
theorem claim_c10_disabled_bypass :
    ∀ (cfg : DRConfig) (st : DRState) (msg : String) (ctx : Option PyContext) (r : LenRand),
      cfg.dynamicEnabled = false →
      get_response_type cfg st msg ctx r = some (.medium, st) := by
  intro cfg st msg ctx r h
  unfold get_response_type
  rw [if_pos (by simp [h])]

/-- C10 witness: the disabled path at a concrete non-trivial state. -/
theorem claim_c10_witness :
    get_response_type cfgOff ⟨some .long, 3⟩ "hello" none lr0
      = some (.medium, ⟨some .long, 3⟩) :=
  claim_c10_disabled_bypass cfgOff ⟨some .long, 3⟩ "hello" none lr0 rfl
